import Mathlib

/-!
# GranSim: a two-dimensional granular-dynamics integrator

A shallow embedding of `src/gran.cpp` (class `GranSim`): the constructor, `predict`,
`correct`, `compute_force` and `step`, followed by theorems about them.

Modelling conventions.

* Scalars.  The C++ `double` is idealised as an arbitrary linearly ordered field `α`
  (exact arithmetic); theorems that need properties of the square root are stated over `ℝ`
  with `Real.sqrt`.  The square root is passed to the force model as an explicit function
  `sqrt : α → α`, so every definition below is executable (over `ℚ`, say).
* Containers.  The header `gran.hpp` is not among the sources.  The way `gran.cpp` uses the
  types it declares (`Matrix::Zero(n,2)`, `.rows()`, `.row(i)`, `.array()`, `.squaredNorm()`,
  `.norm()`, `.dot()`, `force = 0`, coefficient-wise `row/scalar`) shows them to be Eigen
  types: `Matrix` an `N × 2` array of doubles, `Array` a length-`N` array of doubles, `vec2`
  a 2-vector.  A `Matrix` is modelled as the list of its rows.
* Row access outside the container is undefined behaviour in the source.  The model is
  total (reads return `0`, writes do nothing); the theorems that depend on rows being
  present assume `GranSim.WF`, which the constructor establishes for the matrices.
* Division by zero.  With positive radii and masses and `dt ≠ 0` (the preconditions of spec
  §4.1, §4.2) the only divisor that can vanish is `dr_norm` in `dr /= dr_norm` (line 63),
  when two overlapping particles have the same centre; the source then produces NaN in
  `force`, and from there in `rd2` and `rd4`.  The functions `pair_F`, `compute_force`,
  `step` use the field's total division, so their value there is not the source's;
  `pair_body_checked`, `compute_force_checked`, `step_checked`, `steps_checked` return
  `none` there and otherwise the value of the unchecked function.
* Eigen expression templates.  `auto e = <Eigen expression>;` does not evaluate anything:
  `e` is an expression object holding references to its operands, and it is evaluated each
  time it is assigned from (Eigen documentation, "C++11 and the auto keyword").  Such
  variables are modelled as functions of the *current* state, applied at each use.
-/

namespace Gran

variable {α : Type} [LinearOrderedField α]

/-! ## Data model -/

/-- A 2-vector `(x, y)`; component `0` is `.1`, component `1` is `.2`. -/
abbrev vec2 (α : Type) := α × α

/-- An `N × 2` array, as the list of its rows. -/
abbrev Matrix (α : Type) := List (vec2 α)

/-- A length-`N` array of scalars. -/
abbrev Array (α : Type) := List α

/-- Entry `a(i)` of an `Array`. -/
def coeff (a : Array α) (i : Nat) : α := a.getD i 0

/-- Row `m.row(i)` of a `Matrix`, read. -/
def row (m : Matrix α) (i : Nat) : vec2 α := m.getD i 0

/-- Assignment `m.row(i) = v`. -/
def setRow (m : Matrix α) (i : Nat) (v : vec2 α) : Matrix α := m.set i v

/-- The array `Matrix::Zero(n, 2)`. -/
def Matrix.Zero (n : Nat) : Matrix α := List.replicate n 0

/-- Scalar times matrix, `a*m`, coefficient-wise. -/
def scale (a : α) (m : Matrix α) : Matrix α := m.map (fun v => a • v)

/-- Sum of two matrices, `m + n`, coefficient-wise. -/
def madd (m n : Matrix α) : Matrix α := List.zipWith (fun u v => u + v) m n

/-- The value of `v.squaredNorm()`. -/
def squaredNorm (v : vec2 α) : α := v.1 * v.1 + v.2 * v.2

/-- The value of `u.dot(v)`. -/
def dot (u v : vec2 α) : α := u.1 * v.1 + u.2 * v.2

/-- Modelled from the spec: `sgn` is declared in `gran.hpp`, which is not among the sources.
The spec describes it as the sign function that returns −1, 0 or +1, implemented as an
explicit three-way comparison with `sgn(0) = 0`. -/
def sgn (x : α) : α := if 0 < x then 1 else if x < 0 then -1 else 0

/-- The members of class `GranSim`. -/
structure GranSim (α : Type) where
  position : Matrix α
  radii : Array α
  mass : Array α
  young_mod : α
  friction : α
  damp_normal : α
  damp_tangent : α
  dt : α
  time : α
  Nparticles : Nat
  velocity : Matrix α
  rd2 : Matrix α
  rd3 : Matrix α
  rd4 : Matrix α
  force : Matrix α

/-- All per-particle containers have `Nparticles` rows/entries. -/
def GranSim.WF (s : GranSim α) : Prop :=
  s.position.length = s.Nparticles ∧ s.velocity.length = s.Nparticles ∧
  s.rd2.length = s.Nparticles ∧ s.rd3.length = s.Nparticles ∧
  s.rd4.length = s.Nparticles ∧ s.force.length = s.Nparticles ∧
  s.radii.length = s.Nparticles ∧ s.mass.length = s.Nparticles

/-! ## Construction (gran.cpp, lines 4-18) -/

/-- The constructor `GranSim::GranSim`. -/
def GranSim.ctor (position : Matrix α) (radii mass : Array α)
    (young_mod friction damp_normal damp_tangent dt : α) : GranSim α :=
  { position := position
    radii := radii
    mass := mass
    young_mod := young_mod
    friction := friction
    damp_normal := damp_normal
    damp_tangent := damp_tangent
    dt := dt
    time := 0
    Nparticles := position.length
    velocity := Matrix.Zero position.length
    rd2 := Matrix.Zero position.length
    rd3 := Matrix.Zero position.length
    rd4 := Matrix.Zero position.length
    force := Matrix.Zero position.length }

/-! ## Predictor (gran.cpp, lines 20-30) -/

/-- The method `GranSim::predict`: four whole-array statements, executed in order, each one
reading the state left by the previous one. -/
def GranSim.predict (s : GranSim α) : GranSim α :=
  let a1 := s.dt
  let a2 := a1 * s.dt / 2
  let a3 := a2 * s.dt / 3
  let a4 := a3 * s.dt / 4
  let s1 := { s with
    position := madd s.position
      (madd (madd (madd (scale a1 s.velocity) (scale a2 s.rd2)) (scale a3 s.rd3))
        (scale a4 s.rd4)) }
  let s2 := { s1 with
    velocity := madd s1.velocity
      (madd (madd (scale a1 s1.rd2) (scale a2 s1.rd3)) (scale a4 s1.rd4)) }
  let s3 := { s2 with rd2 := madd s2.rd2 (madd (scale a1 s2.rd3) (scale a2 s2.rd4)) }
  { s3 with rd3 := madd s3.rd3 (scale a1 s3.rd4) }

/-! ## Corrector (gran.cpp, lines 32-49) -/

/-- The expression `accel` of `correct`, `force.row(i)/mass(i)`.  It is declared `auto`, so it
is an unevaluated Eigen expression: a function of the state in which it is used. -/
def GranSim.accel (s : GranSim α) (i : Nat) : vec2 α :=
  ((row s.force i).1 / coeff s.mass i, (row s.force i).2 / coeff s.mass i)

/-- The expression `corr` of `correct`, `accel - rd2.row(i)`, likewise declared `auto` and
therefore read from the state in which it is used. -/
def GranSim.corr (s : GranSim α) (i : Nat) : vec2 α := s.accel i - row s.rd2 i

/-- The body of the loop of `correct` for particle `i` (lines 39-45): five assignments in
order, each evaluating its right-hand side in the state left by the previous one. -/
def GranSim.correct_body (c0 c1 c3 c4 : α) (s : GranSim α) (i : Nat) : GranSim α :=
  let s1 := { s with position := setRow s.position i (row s.position i + c0 • s.corr i) }
  let s2 := { s1 with velocity := setRow s1.velocity i (row s1.velocity i + c1 • s1.corr i) }
  let s3 := { s2 with rd2 := setRow s2.rd2 i (s2.accel i) }
  let s4 := { s3 with rd2 := setRow s3.rd2 i (row s3.rd2 i + c3 • s3.corr i) }
  { s4 with rd4 := setRow s4.rd4 i (row s4.rd4 i + c4 • s4.corr i) }

/-- The method `GranSim::correct`. -/
def GranSim.correct (s : GranSim α) : GranSim α :=
  let c0 := 19 / 180 * s.dt ^ 2
  let c1 := 3 / 8 * s.dt
  let c3 := 3 / 2 / s.dt
  let c4 := 1 / s.dt ^ 2
  let s1 := (List.range s.Nparticles).foldl (GranSim.correct_body c0 c1 c3 c4) s
  { s1 with time := s1.time + s1.dt }

/-! ## Force model (gran.cpp, lines 51-92) -/

/-- The magnitude `Fn_mag` (lines 70 and 87). -/
def Fn_mag (sqrt : α → α) (young_mod damp_normal reff overlap dv_n : α) : α :=
  max 0 (sqrt reff * young_mod * sqrt overlap * (overlap + damp_normal * dv_n))

/-- The magnitude `Ft_mag` (lines 71 and 88). -/
def Ft_mag (friction damp_tangent Fn dv_t : α) : α :=
  min (friction * Fn) (damp_tangent * |dv_t|)

/-- The contact test `condition` of the pair `(i, j)` (lines 56-57). -/
def GranSim.condition (s : GranSim α) (i j : Nat) : Prop :=
  squaredNorm (row s.position i - row s.position j)
    < (coeff s.radii i + coeff s.radii j) * (coeff s.radii i + coeff s.radii j)

instance (s : GranSim α) (i j : Nat) : Decidable (s.condition i j) := by
  unfold GranSim.condition; infer_instance

/-- The force `F` of the pair `(i, j)` (lines 61-72), computed inside the branch
`if (condition)`.  `dr` is normalised in place (`dr /= dr_norm`) before it is used.  `F` is
declared `auto`, but its operands (the locals `dr`, `dt` and scalars held by value) are not
written between its two uses, so both uses see the same value.  The two divisions by
`dr_norm` are the field's total division: when `dr_norm = 0` the source divides by zero
and this value is not the source's; `GranSim.pair_body_checked` makes that case explicit. -/
def GranSim.pair_F (sqrt : α → α) (s : GranSim α) (i j : Nat) : vec2 α :=
  let dr0 := row s.position i - row s.position j
  let dr_norm := sqrt (squaredNorm dr0)
  let overlap := coeff s.radii i + coeff s.radii j - dr_norm
  let dr : vec2 α := (dr0.1 / dr_norm, dr0.2 / dr_norm)
  let dt : vec2 α := (-dr.2, dr.1)
  let dv := row s.velocity i - row s.velocity j
  let dv_n := -(dot dr dv)
  let dv_t := dot dt dv
  let reff := coeff s.radii i * coeff s.radii j / (coeff s.radii i + coeff s.radii j)
  let Fn := Fn_mag sqrt s.young_mod s.damp_normal reff overlap dv_n
  let Ft := Ft_mag s.friction s.damp_tangent Fn dv_t
  (dr.1 * Fn - dt.1 * sgn dv_t * Ft, dr.2 * Fn - dt.2 * sgn dv_t * Ft)

/-- The body of the inner loop of the pairwise phase (lines 56-75). -/
def GranSim.pair_body (sqrt : α → α) (i : Nat) (s : GranSim α) (j : Nat) : GranSim α :=
  if s.condition i j then
    let F := s.pair_F sqrt i j
    let s1 := { s with force := setRow s.force i (row s.force i + F) }
    { s1 with force := setRow s1.force j (row s1.force j - F) }
  else s

/-- The body of the outer loop of the pairwise phase: `for (int j=i+1; j<Nparticles; j++)`. -/
def GranSim.pair_row (sqrt : α → α) (s : GranSim α) (i : Nat) : GranSim α :=
  (List.range' (i + 1) (s.Nparticles - (i + 1))).foldl (GranSim.pair_body sqrt i) s

/-- The force the floor exerts on particle `i` (lines 84-89), inside `if (overlap > 0)`. -/
def GranSim.floor_F (sqrt : α → α) (s : GranSim α) (i : Nat) : vec2 α :=
  let overlap := coeff s.radii i - (row s.position i).2
  let dv_n := -(row s.velocity i).2
  let dv_t := (row s.velocity i).1
  let reff := coeff s.radii i
  let Fn := Fn_mag sqrt s.young_mod s.damp_normal reff overlap dv_n
  let Ft := Ft_mag s.friction s.damp_tangent Fn dv_t
  (-sgn dv_t * Ft, Fn)

/-- The body of the per-particle loop (lines 80-90): gravity, then the floor. -/
def GranSim.particle_body (sqrt : α → α) (s : GranSim α) (i : Nat) : GranSim α :=
  let s1 := { s with
    force := setRow s.force i (row s.force i + (coeff s.mass i * 0, coeff s.mass i * (-9.8))) }
  let overlap := coeff s1.radii i - (row s1.position i).2
  if overlap > 0 then
    { s1 with force := setRow s1.force i (row s1.force i + s1.floor_F sqrt i) }
  else s1

/-- The method `GranSim::compute_force`.  `force = 0` sets every coefficient of `force`
to zero and keeps its size. -/
def GranSim.compute_force (sqrt : α → α) (s : GranSim α) : GranSim α :=
  let s0 := { s with force := s.force.map (fun _ => 0) }
  let s1 := (List.range s0.Nparticles).foldl (GranSim.pair_row sqrt) s0
  (List.range s1.Nparticles).foldl (GranSim.particle_body sqrt) s1

/-! ## Stepper (gran.cpp, lines 94-98) -/

/-- The method `GranSim::step`. -/
def GranSim.step (sqrt : α → α) (s : GranSim α) : GranSim α :=
  ((s.predict).compute_force sqrt).correct

/-! ## Inputs used in the concrete evaluations below -/

/-- One particle of radius 1 and mass 1 at height 10, all scalar parameters equal to 1,
freshly constructed. -/
def freeFall (α : Type) [LinearOrderedField α] : GranSim α :=
  GranSim.ctor [(0, 10)] [1] [1] 1 1 1 1 1

/-! ## Loop invariants -/

/-- The state inside the loop of `correct`, after the particles `0, …, k-1` have been
corrected, in terms of the state `s` on entry. -/
def correct_inv (c0 c1 : α) (s : GranSim α) (k : Nat) (t : GranSim α) : Prop :=
  (t.force = s.force ∧ t.mass = s.mass ∧ t.radii = s.radii ∧ t.rd3 = s.rd3 ∧ t.rd4 = s.rd4) ∧
  (t.young_mod = s.young_mod ∧ t.friction = s.friction ∧ t.damp_normal = s.damp_normal ∧
    t.damp_tangent = s.damp_tangent ∧ t.dt = s.dt ∧ t.time = s.time ∧
    t.Nparticles = s.Nparticles) ∧
  (t.position.length = s.position.length ∧ t.velocity.length = s.velocity.length ∧
    t.rd2.length = s.rd2.length) ∧
  ∀ i, (row t.position i = if i < k then row s.position i + c0 • s.corr i else row s.position i) ∧
    (row t.velocity i = if i < k then row s.velocity i + c1 • s.corr i else row s.velocity i) ∧
    (row t.rd2 i = if i < k then s.accel i else row s.rd2 i)

/-- What `correct` never writes, whatever the state: the loop leaves `force`, `mass`, `radii`,
`rd3`, the scalar parameters, `Nparticles` and `time` alone. -/
def correct_frame (s t : GranSim α) : Prop :=
  (t.force = s.force ∧ t.mass = s.mass ∧ t.radii = s.radii ∧ t.rd3 = s.rd3) ∧
  (t.young_mod = s.young_mod ∧ t.friction = s.friction ∧ t.damp_normal = s.damp_normal ∧
    t.damp_tangent = s.damp_tangent ∧ t.dt = s.dt ∧ t.Nparticles = s.Nparticles) ∧
  t.time = s.time

/-! ## The predictor as the spec states it -/

/-- The predictor of spec §4.2 read as one simultaneous update: every right-hand side is
taken from the state on entry.  To be compared with `GranSim.predict`. -/
def GranSim.predict_simultaneous (s : GranSim α) : GranSim α :=
  let a1 := s.dt
  let a2 := a1 * s.dt / 2
  let a3 := a2 * s.dt / 3
  let a4 := a3 * s.dt / 4
  { s with
    position := madd s.position
      (madd (madd (madd (scale a1 s.velocity) (scale a2 s.rd2)) (scale a3 s.rd3))
        (scale a4 s.rd4))
    velocity := madd s.velocity (madd (madd (scale a1 s.rd2) (scale a2 s.rd3)) (scale a4 s.rd4))
    rd2 := madd s.rd2 (madd (scale a1 s.rd3) (scale a2 s.rd4))
    rd3 := madd s.rd3 (scale a1 s.rd4) }

/-- Two particles of radius 1 whose centres are 1 apart (so they overlap), both above the
floor, with non-zero velocity, Taylor coefficients and force. -/
def twoParticles (α : Type) [LinearOrderedField α] : GranSim α :=
  { position := [(0, 2), (1, 2)]
    radii := [1, 1]
    mass := [1, 2]
    young_mod := 1
    friction := 1
    damp_normal := 1
    damp_tangent := 1
    dt := 1
    time := 0
    Nparticles := 2
    velocity := [(1, 0), (0, 1)]
    rd2 := [(1, 1), (0, 0)]
    rd3 := [(0, 1), (1, 0)]
    rd4 := [(1, 0), (0, 2)]
    force := [(2, 0), (0, 4)] }

/-- What the per-particle loop of `compute_force` adds to `force.row(i)`: gravity, and the
floor force when the particle penetrates the floor. -/
def GranSim.particle_F (sqrt : α → α) (s : GranSim α) (i : Nat) : vec2 α :=
  (coeff s.mass i * 0, coeff s.mass i * (-9.8)) +
    if coeff s.radii i - (row s.position i).2 > 0 then s.floor_F sqrt i else 0

/-- The state inside the pairwise phase of `compute_force`, in terms of the state `s` at
the start of the phase: only `force` differs, it has kept its size and its sum. -/
def pair_inv (s t : GranSim α) : Prop :=
  (∃ f, t = { s with force := f }) ∧ t.force.length = s.force.length ∧
    t.force.sum = s.force.sum

/-- The state inside the per-particle phase of `compute_force`, after the particles
`0, …, k-1`, in terms of the state `s` at the start of the phase. -/
def particle_inv (sqrt : α → α) (s : GranSim α) (k : Nat) (t : GranSim α) : Prop :=
  (∃ f, t = { s with force := f }) ∧ t.force.length = s.force.length ∧
    ∀ i, row t.force i = if i < k then row s.force i + s.particle_F sqrt i else row s.force i

/-- Two particles of radius 1 at distance 3 (no contact), both resting above the floor. -/
def apart (α : Type) [LinearOrderedField α] : GranSim α :=
  { position := [(0, 1), (3, 2)]
    radii := [1, 1]
    mass := [1, 2]
    young_mod := 1
    friction := 1
    damp_normal := 1
    damp_tangent := 1
    dt := 1
    time := 0
    Nparticles := 2
    velocity := [(1, 0), (0, 1)]
    rd2 := [(1, 1), (0, 0)]
    rd3 := [(0, 1), (1, 0)]
    rd4 := [(1, 0), (0, 2)]
    force := [(2, 0), (0, 4)] }

/-- The state inside `compute_force`, in terms of the state `s` on entry: only `force`
differs, and it has kept its size. -/
def force_inv (s t : GranSim α) : Prop :=
  ∃ f, t = { s with force := f } ∧ f.length = s.force.length

/-! ## Named parts of the pair and floor force -/

/-- The unit normal of the pair `(i, j)`: the value of `dr` after `dr /= dr_norm` (line 63). -/
def GranSim.pair_n (sqrt : α → α) (s : GranSim α) (i j : Nat) : vec2 α :=
  ((row s.position i - row s.position j).1
      / sqrt (squaredNorm (row s.position i - row s.position j)),
    (row s.position i - row s.position j).2
      / sqrt (squaredNorm (row s.position i - row s.position j)))

/-- The tangent of the pair `(i, j)`: the local `vec2 dt(-dr(1), dr(0))` (line 64). -/
def GranSim.pair_t (sqrt : α → α) (s : GranSim α) (i j : Nat) : vec2 α :=
  (-(s.pair_n sqrt i j).2, (s.pair_n sqrt i j).1)

/-- The value of `dv_t` for the pair `(i, j)` (line 68). -/
def GranSim.pair_dv_t (sqrt : α → α) (s : GranSim α) (i j : Nat) : α :=
  dot (s.pair_t sqrt i j) (row s.velocity i - row s.velocity j)

/-- The value of `Fn_mag` for the pair `(i, j)` (line 70). -/
def GranSim.pair_Fn (sqrt : α → α) (s : GranSim α) (i j : Nat) : α :=
  Fn_mag sqrt s.young_mod s.damp_normal
    (coeff s.radii i * coeff s.radii j / (coeff s.radii i + coeff s.radii j))
    (coeff s.radii i + coeff s.radii j
      - sqrt (squaredNorm (row s.position i - row s.position j)))
    (-(dot (s.pair_n sqrt i j) (row s.velocity i - row s.velocity j)))

/-- The value of `Ft_mag` for the pair `(i, j)` (line 71). -/
def GranSim.pair_Ft (sqrt : α → α) (s : GranSim α) (i j : Nat) : α :=
  Ft_mag s.friction s.damp_tangent (s.pair_Fn sqrt i j) (s.pair_dv_t sqrt i j)

/-- What the floor adds to `force.row(i)` (lines 82-90): `floor_F` when the particle
penetrates the floor, nothing otherwise. -/
def GranSim.floor_contribution (sqrt : α → α) (s : GranSim α) (i : Nat) : vec2 α :=
  if coeff s.radii i - (row s.position i).2 > 0 then s.floor_F sqrt i else 0

/-- The value of `Fn_mag` in the floor contact of particle `i` (line 87). -/
def GranSim.floor_Fn (sqrt : α → α) (s : GranSim α) (i : Nat) : α :=
  Fn_mag sqrt s.young_mod s.damp_normal (coeff s.radii i)
    (coeff s.radii i - (row s.position i).2) (-(row s.velocity i).2)

/-- The value of `Ft_mag` in the floor contact of particle `i` (line 88). -/
def GranSim.floor_Ft (sqrt : α → α) (s : GranSim α) (i : Nat) : α :=
  Ft_mag s.friction s.damp_tangent (s.floor_Fn sqrt i) (row s.velocity i).1

/-- One particle of radius 1 and mass 2 whose centre is at height 1/2, so that it penetrates
the floor by 1/2, moving with velocity `(vx, vy)`. -/
def onFloor (α : Type) [LinearOrderedField α] (vx vy : α) : GranSim α :=
  { position := [(0, 1 / 2)]
    radii := [1]
    mass := [2]
    young_mod := 1
    friction := 1
    damp_normal := 1
    damp_tangent := 1
    dt := 1
    time := 0
    Nparticles := 1
    velocity := [(vx, vy)]
    rd2 := [(0, 0)]
    rd3 := [(0, 0)]
    rd4 := [(0, 0)]
    force := [(3, 4)] }

/-- Two overlapping particles of radius 1 at `(0, 2)` and `(1, 2)` that approach each other
head-on, with velocities `(1, 0)` and `(−1, 0)`. -/
def headOn (α : Type) [LinearOrderedField α] : GranSim α :=
  { position := [(0, 2), (1, 2)]
    radii := [1, 1]
    mass := [1, 2]
    young_mod := 1
    friction := 1
    damp_normal := 1
    damp_tangent := 1
    dt := 1
    time := 0
    Nparticles := 2
    velocity := [(1, 0), (-1, 0)]
    rd2 := [(0, 0), (0, 0)]
    rd3 := [(0, 0), (0, 0)]
    rd4 := [(0, 0), (0, 0)]
    force := [(0, 0), (0, 0)] }

/-- The two loops of `compute_force` (lines 54-91), run on the state `s0` that
`force = 0` (line 52) leaves; `compute_force` is `force_loops` of that state. -/
def GranSim.force_loops (sqrt : α → α) (s0 : GranSim α) : GranSim α :=
  (List.range ((List.range s0.Nparticles).foldl (GranSim.pair_row sqrt) s0).Nparticles).foldl
    (GranSim.particle_body sqrt) ((List.range s0.Nparticles).foldl (GranSim.pair_row sqrt) s0)

/-- The particle count, the radii, the masses and the scalar parameters of `t` are those
of `s`. -/
def same_params (s t : GranSim α) : Prop :=
  t.Nparticles = s.Nparticles ∧ t.radii = s.radii ∧ t.mass = s.mass ∧
  t.young_mod = s.young_mod ∧ t.friction = s.friction ∧ t.damp_normal = s.damp_normal ∧
  t.damp_tangent = s.damp_tangent ∧ t.dt = s.dt

/-- What holds of every state reached from a constructed simulation: position, velocity and
rd2 have `Nparticles` rows, and rd3 and rd4 are the zero arrays of `Nparticles` rows. -/
def reach_inv (s : GranSim α) : Prop :=
  (s.position.length = s.Nparticles ∧ s.velocity.length = s.Nparticles ∧
    s.rd2.length = s.Nparticles) ∧
  s.rd3 = Matrix.Zero s.Nparticles ∧ s.rd4 = Matrix.Zero s.Nparticles

/-! ## The division of line 63, checked -/

/-- The value of `dr_norm` for the pair `(i, j)` (line 61), the divisor of `dr /= dr_norm`
(line 63). -/
def GranSim.dr_norm (sqrt : α → α) (s : GranSim α) (i j : Nat) : α :=
  sqrt (squaredNorm (row s.position i - row s.position j))

/-- The body of the inner loop of the pairwise phase (lines 56-75) with the division of
line 63 checked: inside `if (condition)`, `none` when `dr_norm = 0` (the source then computes
`dr = 0/0`, and `F`, `force.row(i)` and `force.row(j)` become NaN), and otherwise what
`pair_body` computes. -/
def GranSim.pair_body_checked (sqrt : α → α) (i : Nat) (s : GranSim α) (j : Nat) :
    Option (GranSim α) :=
  if s.condition i j then
    if s.dr_norm sqrt i j = 0 then none else some (s.pair_body sqrt i j)
  else some s

/-- The body of the outer loop of the pairwise phase, with the division checked. -/
def GranSim.pair_row_checked (sqrt : α → α) (s : GranSim α) (i : Nat) : Option (GranSim α) :=
  (List.range' (i + 1) (s.Nparticles - (i + 1))).foldlM (GranSim.pair_body_checked sqrt i) s

/-- The method `GranSim::compute_force` with the division of line 63 checked; the
per-particle loop divides by nothing. -/
def GranSim.compute_force_checked (sqrt : α → α) (s : GranSim α) : Option (GranSim α) :=
  let s0 := { s with force := s.force.map (fun _ => 0) }
  ((List.range s0.Nparticles).foldlM (GranSim.pair_row_checked sqrt) s0).map
    (fun s1 => (List.range s1.Nparticles).foldl (GranSim.particle_body sqrt) s1)

/-- The method `GranSim::step` with the division of line 63 checked. -/
def GranSim.step_checked (sqrt : α → α) (s : GranSim α) : Option (GranSim α) :=
  ((s.predict).compute_force_checked sqrt).map GranSim.correct

/-- The state after `k` calls of `step`, with the division of line 63 checked in each. -/
def GranSim.steps_checked (sqrt : α → α) : Nat → GranSim α → Option (GranSim α)
  | 0, s => some s
  | k + 1, s => (GranSim.steps_checked sqrt k s).bind (GranSim.step_checked sqrt)

/-- Two particles of radius 1 and mass 1 constructed at the same point `(0, 5)`, above the
floor; all scalar parameters equal to 1. -/
def coincident (α : Type) [LinearOrderedField α] : GranSim α :=
  GranSim.ctor [(0, 5), (0, 5)] [1, 1] [1, 1] 1 1 1 1 1

/-- Two overlapping particles of radius 1 constructed at `(0, 2)` and `(1, 2)`, above the
floor; masses 1 and 2, all scalar parameters equal to 1. -/
def touching (α : Type) [LinearOrderedField α] : GranSim α :=
  GranSim.ctor [(0, 2), (1, 2)] [1, 1] [1, 2] 1 1 1 1 1

/-! # Theorems -/

/-! ## Rows of arrays -/

theorem row_setRow_self (m : Matrix α) (i : Nat) (v : vec2 α) (h : i < m.length) :
    row (setRow m i v) i = v := by
  simp [row, setRow, h]

theorem row_setRow_ne (m : Matrix α) (i j : Nat) (v : vec2 α) (h : i ≠ j) :
    row (setRow m i v) j = row m j := by
  simp [row, setRow, List.getElem?_set_ne h]

theorem length_setRow (m : Matrix α) (i : Nat) (v : vec2 α) :
    (setRow m i v).length = m.length := by
  simp [setRow]

theorem row_scale (a : α) (m : Matrix α) (i : Nat) : row (scale a m) i = a • row m i := by
  unfold row scale
  rcases lt_or_le i m.length with h | h
  · simp [List.getD_eq_getElem?_getD, List.getElem?_eq_getElem h]
  · simp [List.getD_eq_getElem?_getD, List.getElem?_eq_none h]

theorem length_scale (a : α) (m : Matrix α) : (scale a m).length = m.length := by
  simp [scale]

theorem row_madd (m n : Matrix α) (i : Nat) (h : m.length = n.length) :
    row (madd m n) i = row m i + row n i := by
  unfold row madd
  rcases lt_or_le i m.length with hi | hi
  · have hj : i < n.length := h ▸ hi
    simp [List.getD_eq_getElem?_getD, List.getElem?_eq_getElem hi, List.getElem?_eq_getElem hj,
      List.getElem?_zipWith]
  · have hj : n.length ≤ i := h ▸ hi
    simp [List.getD_eq_getElem?_getD, List.getElem?_eq_none hi, List.getElem?_eq_none hj,
      List.getElem?_zipWith]

theorem length_madd (m n : Matrix α) (h : m.length = n.length) :
    (madd m n).length = m.length := by
  simp [madd, h]

/-- Loop invariants: a property that holds before a counted loop and is carried from `k` to
`k + 1` by the body holds after the loop. -/
theorem foldl_range_invariant {σ : Type} (P : Nat → σ → Prop) (f : σ → Nat → σ) (s : σ)
    (n : Nat) (h0 : P 0 s) (hstep : ∀ k t, k < n → P k t → P (k + 1) (f t k)) :
    P n ((List.range n).foldl f s) := by
  induction n with
  | zero => simpa using h0
  | succ n ih =>
    rw [List.range_succ, List.foldl_append]
    simp only [List.foldl_cons, List.foldl_nil]
    exact hstep n _ (Nat.lt_succ_self n)
      (ih (fun k t hk hP => hstep k t (Nat.lt_succ_of_lt hk) hP))

theorem setRow_row_self (m : Matrix α) (i : Nat) : setRow m i (row m i) = m := by
  unfold setRow row
  apply List.ext_getElem?
  intro j
  by_cases hij : i = j
  · subst hij
    rcases lt_or_le i m.length with h | h
    · simp [List.getElem?_set_self h, List.getD_eq_getElem?_getD, List.getElem?_eq_getElem h]
    · simp [List.getElem?_eq_none h, h]
  · simp [List.getElem?_set_ne hij]

theorem setRow_setRow (m : Matrix α) (i : Nat) (u v : vec2 α) :
    setRow (setRow m i u) i v = setRow m i v := by
  simp [setRow, List.set_set]

/-! ## The corrector -/

/-- What one iteration of the loop of `correct` does to a state whose `rd2` has a row `i`:
`rd2.row(i)` becomes `accel` and `rd4.row(i)` keeps its value, because `corr` is re-read
after `rd2.row(i) = accel` and is then zero. -/
theorem correct_body_eq (c0 c1 c3 c4 : α) (s : GranSim α) (i : Nat) (h : i < s.rd2.length) :
    s.correct_body c0 c1 c3 c4 i =
      { s with
        position := setRow s.position i (row s.position i + c0 • s.corr i)
        velocity := setRow s.velocity i (row s.velocity i + c1 • s.corr i)
        rd2 := setRow s.rd2 i (s.accel i) } := by
  have h0 : ∀ a : vec2 α, a - a = 0 := fun a => sub_self a
  simp only [GranSim.correct_body, GranSim.corr, GranSim.accel, row_setRow_self _ _ _ h,
    length_setRow, h, h0, smul_zero, add_zero, setRow_setRow, setRow_row_self]

theorem correct_loop (c0 c1 c3 c4 : α) (s : GranSim α)
    (hp : s.position.length = s.Nparticles) (hv : s.velocity.length = s.Nparticles)
    (h2 : s.rd2.length = s.Nparticles) :
    correct_inv c0 c1 s s.Nparticles
      ((List.range s.Nparticles).foldl (GranSim.correct_body c0 c1 c3 c4) s) := by
  apply foldl_range_invariant (correct_inv c0 c1 s)
  · refine ⟨⟨rfl, rfl, rfl, rfl, rfl⟩, ⟨rfl, rfl, rfl, rfl, rfl, rfl, rfl⟩, ⟨rfl, rfl, rfl⟩, ?_⟩
    intro i
    simp
  · rintro k t hk ⟨⟨hf, hm, hr, h3, h4⟩, ⟨e1, e2, e3, e4, e5, e6, e7⟩, ⟨lp, lv, l2⟩, hrow⟩
    have hk2 : k < t.rd2.length := by omega
    have hkp : k < t.position.length := by omega
    have hkv : k < t.velocity.length := by omega
    have hcorr : t.corr k = s.corr k := by
      simp [GranSim.corr, GranSim.accel, hf, hm, (hrow k).2.2]
    have hacc : t.accel k = s.accel k := by
      simp [GranSim.accel, hf, hm]
    rw [correct_body_eq c0 c1 c3 c4 t k hk2]
    refine ⟨⟨hf, hm, hr, h3, h4⟩, ⟨e1, e2, e3, e4, e5, e6, e7⟩, ?_, ?_⟩
    · simp [length_setRow, lp, lv, l2]
    · intro i
      by_cases hik : k = i
      · subst hik
        simp [row_setRow_self _ _ _ hkp, row_setRow_self _ _ _ hkv, row_setRow_self _ _ _ hk2,
          hcorr, hacc, (hrow k).1, (hrow k).2.1]
      · have hlt : i < k + 1 ↔ i < k := by omega
        simp [row_setRow_ne _ _ _ _ hik, hlt, hrow i]

/-- The state `correct` returns, in terms of the state on entry. -/
theorem correct_spec (s : GranSim α)
    (hp : s.position.length = s.Nparticles) (hv : s.velocity.length = s.Nparticles)
    (h2 : s.rd2.length = s.Nparticles) :
    correct_inv (19 / 180 * s.dt ^ 2) (3 / 8 * s.dt) s s.Nparticles
      { s.correct with time := s.time } := by
  have hl := correct_loop (19 / 180 * s.dt ^ 2) (3 / 8 * s.dt) (3 / 2 / s.dt) (1 / s.dt ^ 2) s
    hp hv h2
  obtain ⟨h1, ⟨e1, e2, e3, e4, e5, e6, e7⟩, h3, h4⟩ := hl
  exact ⟨h1, ⟨e1, e2, e3, e4, e5, rfl, e7⟩, h3, h4⟩

theorem correct_loop_frame (c0 c1 c3 c4 : α) (s : GranSim α) (n : Nat) :
    correct_frame s ((List.range n).foldl (GranSim.correct_body c0 c1 c3 c4) s) := by
  apply foldl_range_invariant (fun _ t => correct_frame s t)
  · exact ⟨⟨rfl, rfl, rfl, rfl⟩, ⟨rfl, rfl, rfl, rfl, rfl, rfl⟩, rfl⟩
  · intro k t _ ht
    exact ht

theorem correct_time (s : GranSim α) : s.correct.time = s.time + s.dt := by
  obtain ⟨-, ⟨-, -, -, -, e5, -⟩, e6⟩ :=
    correct_loop_frame (19 / 180 * s.dt ^ 2) (3 / 8 * s.dt) (3 / 2 / s.dt) (1 / s.dt ^ 2) s
      s.Nparticles
  simp only [GranSim.correct, e5, e6]

/-! ## The predictor -/

theorem predict_rows (s : GranSim α) (h : s.WF) (i : Nat) :
    row s.predict.position i = row s.position i + s.dt • row s.velocity i
        + (s.dt ^ 2 / 2) • row s.rd2 i + (s.dt ^ 3 / 6) • row s.rd3 i
        + (s.dt ^ 4 / 24) • row s.rd4 i ∧
    row s.predict.velocity i = row s.velocity i + s.dt • row s.rd2 i
        + (s.dt ^ 2 / 2) • row s.rd3 i + (s.dt ^ 4 / 24) • row s.rd4 i ∧
    row s.predict.rd2 i = row s.rd2 i + s.dt • row s.rd3 i + (s.dt ^ 2 / 2) • row s.rd4 i ∧
    row s.predict.rd3 i = row s.rd3 i + s.dt • row s.rd4 i := by
  obtain ⟨hp, hv, h2, h3, h4, -, -, -⟩ := h
  have e2 : s.dt * s.dt / 2 = s.dt ^ 2 / 2 := by ring
  have e3 : s.dt * s.dt / 2 * s.dt / 3 = s.dt ^ 3 / 6 := by ring
  have e4 : s.dt * s.dt / 2 * s.dt / 3 * s.dt / 4 = s.dt ^ 4 / 24 := by ring
  have l (a b : α) (m n : Matrix α) (hm : m.length = s.Nparticles)
      (hn : n.length = s.Nparticles) : (scale a m).length = (scale b n).length := by
    rw [length_scale, length_scale, hm, hn]
  have e3a : s.dt ^ 2 / 2 * s.dt / 3 = s.dt ^ 3 / 6 := by ring
  have e4a : s.dt ^ 2 / 2 * s.dt / 3 * s.dt / 4 = s.dt ^ 4 / 24 := by ring
  have e4b : s.dt ^ 3 / 6 * s.dt / 4 = s.dt ^ 4 / 24 := by ring
  simp only [GranSim.predict, e2, e3, e4, e3a, e4a, e4b]
  refine ⟨?_, ?_, ?_, ?_⟩
  · rw [row_madd, row_madd, row_madd, row_madd, row_scale, row_scale, row_scale, row_scale]
    · simp only [add_assoc]
    · exact l _ _ _ _ hv h2
    · rw [length_madd _ _ (l _ _ _ _ hv h2)]; exact l _ _ _ _ hv h3
    · rw [length_madd, length_madd _ _ (l _ _ _ _ hv h2)]
      · exact l _ _ _ _ hv h4
      · rw [length_madd _ _ (l _ _ _ _ hv h2)]; exact l _ _ _ _ hv h3
    · rw [length_madd, length_madd, length_madd _ _ (l _ _ _ _ hv h2), length_scale, hp, hv]
      · rw [length_madd _ _ (l _ _ _ _ hv h2)]; exact l _ _ _ _ hv h3
      · rw [length_madd, length_madd _ _ (l _ _ _ _ hv h2)]
        · exact l _ _ _ _ hv h4
        · rw [length_madd _ _ (l _ _ _ _ hv h2)]; exact l _ _ _ _ hv h3
  · rw [row_madd, row_madd, row_madd, row_scale, row_scale, row_scale]
    · simp only [add_assoc]
    · exact l _ _ _ _ h2 h3
    · rw [length_madd _ _ (l _ _ _ _ h2 h3)]; exact l _ _ _ _ h2 h4
    · rw [length_madd, length_madd _ _ (l _ _ _ _ h2 h3), length_scale, hv, h2]
      rw [length_madd _ _ (l _ _ _ _ h2 h3)]; exact l _ _ _ _ h2 h4
  · rw [row_madd, row_madd, row_scale, row_scale]
    · simp only [add_assoc]
    · exact l _ _ _ _ h3 h4
    · rw [length_madd _ _ (l _ _ _ _ h3 h4), length_scale, h2, h3]
  · rw [row_madd, row_scale]
    rw [length_scale, h3, h4]

/-- C4: `predict` is the simultaneous update of spec §4.2 computed from the state on entry
(no statement reads a value that an earlier statement of the same call has overwritten);
row by row, with a1 = dt, a2 = dt²/2, a3 = dt³/6, a4 = dt⁴/24, position' = position +
a1·velocity + a2·rd2 + a3·rd3 + a4·rd4, velocity' = velocity + a1·rd2 + a2·rd3 + a4·rd4,
rd2' = rd2 + a1·rd3 + a2·rd4, rd3' = rd3 + a1·rd4; and rd4, force, radii, mass and time are
unchanged. -/
theorem predict_eq_simultaneous (s : GranSim α) (h : s.WF) (i : Nat) :
    s.predict = s.predict_simultaneous ∧
    (row s.predict.position i = row s.position i + s.dt • row s.velocity i
        + (s.dt ^ 2 / 2) • row s.rd2 i + (s.dt ^ 3 / 6) • row s.rd3 i
        + (s.dt ^ 4 / 24) • row s.rd4 i ∧
      row s.predict.velocity i = row s.velocity i + s.dt • row s.rd2 i
        + (s.dt ^ 2 / 2) • row s.rd3 i + (s.dt ^ 4 / 24) • row s.rd4 i ∧
      row s.predict.rd2 i = row s.rd2 i + s.dt • row s.rd3 i + (s.dt ^ 2 / 2) • row s.rd4 i ∧
      row s.predict.rd3 i = row s.rd3 i + s.dt • row s.rd4 i) ∧
    (s.predict.rd4 = s.rd4 ∧ s.predict.force = s.force ∧ s.predict.radii = s.radii ∧
      s.predict.mass = s.mass ∧ s.predict.time = s.time) :=
  ⟨rfl, predict_rows s h i, rfl, rfl, rfl, rfl, rfl⟩

theorem twoParticles_WF (β : Type) [LinearOrderedField β] : (twoParticles β).WF :=
  ⟨rfl, rfl, rfl, rfl, rfl, rfl, rfl, rfl⟩

theorem predict_eq_simultaneous_witness :
    (twoParticles ℚ).WF ∧
    (twoParticles ℚ).predict = (twoParticles ℚ).predict_simultaneous ∧
    (row (twoParticles ℚ).predict.position 0 = row (twoParticles ℚ).position 0
        + (twoParticles ℚ).dt • row (twoParticles ℚ).velocity 0
        + ((twoParticles ℚ).dt ^ 2 / 2) • row (twoParticles ℚ).rd2 0
        + ((twoParticles ℚ).dt ^ 3 / 6) • row (twoParticles ℚ).rd3 0
        + ((twoParticles ℚ).dt ^ 4 / 24) • row (twoParticles ℚ).rd4 0 ∧
      row (twoParticles ℚ).predict.velocity 0 = row (twoParticles ℚ).velocity 0
        + (twoParticles ℚ).dt • row (twoParticles ℚ).rd2 0
        + ((twoParticles ℚ).dt ^ 2 / 2) • row (twoParticles ℚ).rd3 0
        + ((twoParticles ℚ).dt ^ 4 / 24) • row (twoParticles ℚ).rd4 0 ∧
      row (twoParticles ℚ).predict.rd2 0 = row (twoParticles ℚ).rd2 0
        + (twoParticles ℚ).dt • row (twoParticles ℚ).rd3 0
        + ((twoParticles ℚ).dt ^ 2 / 2) • row (twoParticles ℚ).rd4 0 ∧
      row (twoParticles ℚ).predict.rd3 0 = row (twoParticles ℚ).rd3 0
        + (twoParticles ℚ).dt • row (twoParticles ℚ).rd4 0) ∧
    ((twoParticles ℚ).predict.rd4 = (twoParticles ℚ).rd4 ∧
      (twoParticles ℚ).predict.force = (twoParticles ℚ).force ∧
      (twoParticles ℚ).predict.radii = (twoParticles ℚ).radii ∧
      (twoParticles ℚ).predict.mass = (twoParticles ℚ).mass ∧
      (twoParticles ℚ).predict.time = (twoParticles ℚ).time) :=
  ⟨twoParticles_WF ℚ, predict_eq_simultaneous (twoParticles ℚ) (twoParticles_WF ℚ) 0⟩

/-! ## The force model -/

theorem foldl_invariant {σ β : Type} (P : σ → Prop) (f : σ → β → σ) (l : List β) (s : σ)
    (h0 : P s) (hstep : ∀ t x, x ∈ l → P t → P (f t x)) : P (l.foldl f s) := by
  induction l generalizing s with
  | nil => simpa using h0
  | cons a l ih =>
    simp only [List.foldl_cons]
    exact ih _ (hstep s a (List.mem_cons_self a l) h0)
      (fun t x hx hP => hstep t x (List.mem_cons_of_mem a hx) hP)

theorem sum_setRow (m : Matrix α) (i : Nat) (v : vec2 α) (h : i < m.length) :
    (setRow m i v).sum = m.sum - row m i + v := by
  unfold setRow row
  rw [List.sum_set', dif_pos h, List.getD_eq_getElem _ _ h]
  abel

theorem pair_inv_refl (s : GranSim α) : pair_inv s s := ⟨⟨s.force, rfl⟩, rfl, rfl⟩

theorem pair_inv_trans (s t u : GranSim α) (h1 : pair_inv s t) (h2 : pair_inv t u) :
    pair_inv s u := by
  obtain ⟨⟨f, rfl⟩, l1, s1⟩ := h1
  obtain ⟨⟨g, rfl⟩, l2, s2⟩ := h2
  exact ⟨⟨g, rfl⟩, l2.trans l1, s2.trans s1⟩

/-- One pair interaction: `+F` on row `i` and `-F` on row `j` cancel in the sum. -/
theorem pair_body_inv (sqrt : α → α) (s : GranSim α) (i j : Nat) (hi : i < s.force.length)
    (hj : j < s.force.length) : pair_inv s (s.pair_body sqrt i j) := by
  unfold GranSim.pair_body
  split
  · refine ⟨⟨_, rfl⟩, ?_, ?_⟩
    · simp [length_setRow]
    · simp only []
      rw [sum_setRow _ _ _ (by rw [length_setRow]; exact hj), sum_setRow _ _ _ hi]
      abel
  · exact pair_inv_refl s

theorem pair_row_inv (sqrt : α → α) (s : GranSim α) (i : Nat)
    (hl : s.force.length = s.Nparticles) (hi : i < s.Nparticles) :
    pair_inv s (s.pair_row sqrt i) := by
  unfold GranSim.pair_row
  apply foldl_invariant (pair_inv s)
  · exact pair_inv_refl s
  · intro t j hj ht
    have hj2 := List.mem_range'_1.mp hj
    have hlt : t.force.length = s.force.length := ht.2.1
    exact pair_inv_trans s t _ ht
      (pair_body_inv sqrt t i j (by omega) (by omega))

theorem pair_phase_inv (sqrt : α → α) (s : GranSim α) (hl : s.force.length = s.Nparticles) :
    pair_inv s ((List.range s.Nparticles).foldl (GranSim.pair_row sqrt) s) := by
  apply foldl_invariant (pair_inv s)
  · exact pair_inv_refl s
  · intro t i hi ht
    have hi2 := List.mem_range.mp hi
    have hlt : t.force.length = s.force.length := ht.2.1
    have hN : t.Nparticles = s.Nparticles := by
      obtain ⟨⟨f, rfl⟩, -, -⟩ := ht
      rfl
    exact pair_inv_trans s t _ ht
      (pair_row_inv sqrt t i (by omega) (by omega))

/-- Without any contact between particles the pairwise phase does nothing. -/
theorem pair_phase_no_contact (sqrt : α → α) (s : GranSim α)
    (h : ∀ i j, i < j → j < s.Nparticles → ¬ s.condition i j) :
    (List.range s.Nparticles).foldl (GranSim.pair_row sqrt) s = s := by
  apply foldl_invariant (fun t => t = s)
  · rfl
  · rintro t i - rfl
    unfold GranSim.pair_row
    apply foldl_invariant (fun u => u = t)
    · rfl
    · rintro u j hj rfl
      have hj2 := List.mem_range'_1.mp hj
      unfold GranSim.pair_body
      rw [if_neg (h i j (by omega) (by omega))]

/-- One iteration of the per-particle loop, on a state whose `force` has a row `i`. -/
theorem particle_body_eq (sqrt : α → α) (s : GranSim α) (i : Nat) (h : i < s.force.length) :
    s.particle_body sqrt i =
      { s with force := setRow s.force i (row s.force i + s.particle_F sqrt i) } := by
  unfold GranSim.particle_body GranSim.particle_F
  by_cases hc : coeff s.radii i - (row s.position i).2 > 0
  · simp only [hc, if_true, row_setRow_self _ _ _ h, setRow_setRow, add_assoc]
    rfl
  · simp only [hc, if_false, add_zero]

theorem particle_loop (sqrt : α → α) (s : GranSim α) (hl : s.force.length = s.Nparticles) :
    particle_inv sqrt s s.Nparticles
      ((List.range s.Nparticles).foldl (GranSim.particle_body sqrt) s) := by
  apply foldl_range_invariant (particle_inv sqrt s)
  · exact ⟨⟨s.force, rfl⟩, rfl, fun i => by simp⟩
  · rintro k t hk ⟨⟨f, rfl⟩, lf, hrow⟩
    have hkf : k < f.length := by
      have : f.length = s.force.length := lf
      omega
    rw [particle_body_eq sqrt _ k hkf]
    refine ⟨⟨_, rfl⟩, ?_, ?_⟩
    · simpa [length_setRow] using lf
    · intro i
      have hk0 : row f k = row s.force k := by simpa using hrow k
      by_cases hik : k = i
      · subst hik
        simp only [row_setRow_self _ _ _ hkf, Nat.lt_succ_self, if_true, hk0]
        rfl
      · have hlt : i < k + 1 ↔ i < k := by omega
        simp only [row_setRow_ne _ _ _ _ hik, hlt]
        exact hrow i

/-- Without floor contact the per-particle loop adds `mass(i)·(0, −9.8)` to each row, so
it adds `(0, −9.8·Σ mass)` to the sum of the rows. -/
theorem particle_loop_sum (sqrt : α → α) (s : GranSim α) (hl : s.force.length = s.Nparticles)
    (hm : s.mass.length = s.Nparticles)
    (hfloor : ∀ i, i < s.Nparticles → coeff s.radii i - (row s.position i).2 ≤ 0) :
    ((List.range s.Nparticles).foldl (GranSim.particle_body sqrt) s).force.sum
      = s.force.sum + (0, -9.8 * s.mass.sum) := by
  have key : ∀ k, k ≤ s.Nparticles →
      (∃ f, (List.range k).foldl (GranSim.particle_body sqrt) s = { s with force := f } ∧
        f.length = s.force.length ∧ f.sum = s.force.sum + (0, -9.8 * (s.mass.take k).sum)) := by
    intro k
    induction k with
    | zero => intro _; exact ⟨s.force, rfl, rfl, by simp⟩
    | succ k ih =>
      intro hk
      obtain ⟨f, hf, lf, sf⟩ := ih (by omega)
      have hkf : k < f.length := by omega
      have hkm : k < s.mass.length := by omega
      rw [List.range_succ, List.foldl_append, hf]
      simp only [List.foldl_cons, List.foldl_nil]
      rw [particle_body_eq sqrt _ k hkf]
      refine ⟨_, rfl, by simpa [length_setRow] using lf, ?_⟩
      have hno : ¬ (coeff s.radii k - (row s.position k).2 > 0) :=
        not_lt.mpr (hfloor k (by omega))
      have hF : GranSim.particle_F sqrt { s with force := f } k
          = (0, -9.8 * coeff s.mass k) := by
        unfold GranSim.particle_F
        rw [if_neg hno, add_zero, mul_zero, mul_comm]
      have hc : coeff s.mass k = s.mass[k] := by
        unfold coeff
        exact List.getD_eq_getElem _ _ hkm
      simp only []
      rw [sum_setRow _ _ _ hkf, hF, sf, List.sum_take_succ _ _ hkm, hc]
      ext
      · simp
      · simp
        ring
  obtain ⟨f, hf, -, sf⟩ := key s.Nparticles le_rfl
  rw [hf]
  simp only []
  rw [sf, ← hm, List.take_length]

theorem sum_map_zero (m : Matrix α) : (m.map (fun _ => (0 : vec2 α))).sum = 0 := by
  induction m with
  | nil => rfl
  | cons a m ih => simp [ih]

theorem row_map_zero (m : Matrix α) (i : Nat) : row (m.map (fun _ => (0 : vec2 α))) i = 0 := by
  unfold row
  rcases lt_or_le i m.length with h | h
  · simp [List.getD_eq_getElem?_getD, List.getElem?_eq_getElem h]
  · simp [List.getD_eq_getElem?_getD, List.getElem?_eq_none h]

/-- The rows of the force `compute_force` returns, when no two particles are in contact:
gravity plus the floor force. -/
theorem compute_force_rows_no_contact (sqrt : α → α) (s : GranSim α)
    (hl : s.force.length = s.Nparticles)
    (h : ∀ i j, i < j → j < s.Nparticles → ¬ s.condition i j) (i : Nat)
    (hi : i < s.Nparticles) :
    row (s.compute_force sqrt).force i = s.particle_F sqrt i := by
  unfold GranSim.compute_force
  simp only []
  rw [pair_phase_no_contact sqrt { s with force := s.force.map (fun _ => 0) } h]
  obtain ⟨-, -, hrow⟩ := particle_loop sqrt { s with force := s.force.map (fun _ => 0) }
    (by simpa using hl)
  rw [hrow i, if_pos hi]
  simp only [row_map_zero, zero_add]
  rfl

/-- The sum of the rows of the force `compute_force` returns, when no particle penetrates
the floor. -/
theorem compute_force_sum (sqrt : α → α) (s : GranSim α) (hl : s.force.length = s.Nparticles)
    (hm : s.mass.length = s.Nparticles)
    (hfloor : ∀ i, i < s.Nparticles → coeff s.radii i - (row s.position i).2 ≤ 0) :
    (s.compute_force sqrt).force.sum = (0, -9.8 * s.mass.sum) := by
  unfold GranSim.compute_force
  simp only []
  obtain ⟨⟨f, hf⟩, lf, sf⟩ := pair_phase_inv sqrt { s with force := s.force.map (fun _ => 0) }
    (by simpa using hl)
  rw [hf] at lf sf ⊢
  simp only [List.length_map, sum_map_zero] at lf sf
  have := particle_loop_sum sqrt { s with force := f } (by simpa [lf] using hl) hm hfloor
  simp only [] at this
  rw [this, sf, zero_add]

/-- One pair interaction and the whole of `compute_force` in the total model (division by
`dr_norm` taken with the field's total division): the interaction adds `pair_F` to row `i`
and subtracts it from row `j`, keeping the sum of the rows; without floor contact the rows
of the computed force sum to `(0, −9.8·Σ mass)`. -/
theorem pair_body_rows_sum (sqrt : α → α) (s : GranSim α) (h : s.WF) :
    (∀ i j, i < j → j < s.Nparticles → s.condition i j →
      row (s.pair_body sqrt i j).force i = row s.force i + s.pair_F sqrt i j ∧
      row (s.pair_body sqrt i j).force j = row s.force j - s.pair_F sqrt i j ∧
      (s.pair_body sqrt i j).force.sum = s.force.sum) ∧
    ((∀ i, i < s.Nparticles → coeff s.radii i - (row s.position i).2 ≤ 0) →
      (s.compute_force sqrt).force.sum = (0, -9.8 * s.mass.sum)) := by
  obtain ⟨-, -, -, -, -, hf, -, hm⟩ := h
  refine ⟨?_, compute_force_sum sqrt s hf hm⟩
  intro i j hij hj hc
  have hi2 : i < s.force.length := by omega
  have hj2 : j < s.force.length := by omega
  refine ⟨?_, ?_, (pair_body_inv sqrt s i j hi2 hj2).2.2⟩
  · unfold GranSim.pair_body
    rw [if_pos hc]
    simp only []
    rw [row_setRow_ne _ _ _ _ (by omega : j ≠ i), row_setRow_self _ _ _ hi2]
  · unfold GranSim.pair_body
    rw [if_pos hc]
    simp only []
    rw [row_setRow_self _ _ _ (by rw [length_setRow]; exact hj2),
      row_setRow_ne _ _ _ _ (by omega : i ≠ j)]

theorem twoParticles_condition : (twoParticles ℝ).condition 0 1 := by
  simp [GranSim.condition, twoParticles, row, coeff, squaredNorm]
  norm_num

theorem twoParticles_floor (i : Nat) (hi : i < (twoParticles ℝ).Nparticles) :
    coeff (twoParticles ℝ).radii i - (row (twoParticles ℝ).position i).2 ≤ 0 := by
  have h2 : i < 2 := hi
  interval_cases i <;> simp [twoParticles, row, coeff]

/-- C8: no-contact force.  In a state where every pair `i < j` fails the contact test
(`‖pos(i) − pos(j)‖² ≥ (radius(i)+radius(j))²`) and no particle penetrates the floor
(`radius(i) − position(i).y ≤ 0`), `compute_force` leaves `force(i) = mass(i)·(0, −9.8)`
for every particle `i`. -/
theorem no_contact_force (sqrt : α → α) (s : GranSim α) (h : s.WF)
    (hpair : ∀ i j, i < j → j < s.Nparticles →
      squaredNorm (row s.position i - row s.position j)
        ≥ (coeff s.radii i + coeff s.radii j) * (coeff s.radii i + coeff s.radii j))
    (hfloor : ∀ i, i < s.Nparticles → coeff s.radii i - (row s.position i).2 ≤ 0)
    (i : Nat) (hi : i < s.Nparticles) :
    row (s.compute_force sqrt).force i = coeff s.mass i • ((0, -9.8) : vec2 α) := by
  rw [compute_force_rows_no_contact sqrt s h.2.2.2.2.2.1
    (fun a b hab hb => not_lt.mpr (hpair a b hab hb)) i hi]
  unfold GranSim.particle_F
  rw [if_neg (not_lt.mpr (hfloor i hi)), add_zero]
  ext <;> simp

theorem apart_WF (β : Type) [LinearOrderedField β] : (apart β).WF :=
  ⟨rfl, rfl, rfl, rfl, rfl, rfl, rfl, rfl⟩

theorem apart_pairs (i j : Nat) (hij : i < j) (hj : j < (apart ℝ).Nparticles) :
    squaredNorm (row (apart ℝ).position i - row (apart ℝ).position j)
      ≥ (coeff (apart ℝ).radii i + coeff (apart ℝ).radii j)
        * (coeff (apart ℝ).radii i + coeff (apart ℝ).radii j) := by
  have h2 : j < 2 := hj
  have hj1 : j = 1 := by omega
  have hi0 : i = 0 := by omega
  subst hj1 hi0
  simp [apart, row, coeff, squaredNorm]
  norm_num

theorem apart_floor (i : Nat) (hi : i < (apart ℝ).Nparticles) :
    coeff (apart ℝ).radii i - (row (apart ℝ).position i).2 ≤ 0 := by
  have h2 : i < 2 := hi
  interval_cases i <;> simp [apart, row, coeff]

theorem no_contact_force_witness :
    (apart ℝ).WF ∧ 1 < (apart ℝ).Nparticles ∧
    row ((apart ℝ).compute_force Real.sqrt).force 1
      = coeff (apart ℝ).mass 1 • ((0, -9.8) : vec2 ℝ) :=
  ⟨apart_WF ℝ, by decide,
    no_contact_force Real.sqrt (apart ℝ) (apart_WF ℝ) apart_pairs apart_floor 1 (by decide)⟩

theorem force_inv_trans (s t u : GranSim α) (h1 : force_inv s t) (h2 : force_inv t u) :
    force_inv s u := by
  obtain ⟨f, rfl, l1⟩ := h1
  obtain ⟨g, rfl, l2⟩ := h2
  exact ⟨g, rfl, l2.trans l1⟩

theorem pair_body_force_inv (sqrt : α → α) (s : GranSim α) (i j : Nat) :
    force_inv s (s.pair_body sqrt i j) := by
  unfold GranSim.pair_body
  split
  · exact ⟨_, rfl, by simp [length_setRow]⟩
  · exact ⟨_, rfl, rfl⟩

theorem particle_body_force_inv (sqrt : α → α) (s : GranSim α) (i : Nat) :
    force_inv s (s.particle_body sqrt i) := by
  unfold GranSim.particle_body
  simp only []
  split
  · exact ⟨_, rfl, by simp [length_setRow]⟩
  · exact ⟨_, rfl, by simp [length_setRow]⟩

/-- `compute_force` writes `force` only, and keeps its size, whatever the state. -/
theorem compute_force_frame (sqrt : α → α) (s : GranSim α) :
    force_inv s (s.compute_force sqrt) := by
  unfold GranSim.compute_force
  simp only []
  have h0 : force_inv s { s with force := s.force.map (fun _ => 0) } :=
    ⟨_, rfl, by simp⟩
  have h1 : force_inv s ((List.range s.Nparticles).foldl (GranSim.pair_row sqrt)
      { s with force := s.force.map (fun _ => 0) }) := by
    apply foldl_invariant (force_inv s)
    · exact h0
    · intro t i _ ht
      unfold GranSim.pair_row
      apply foldl_invariant (force_inv s)
      · exact ht
      · intro u j _ hu
        exact force_inv_trans s u _ hu (pair_body_force_inv sqrt u i j)
  apply foldl_invariant (force_inv s)
  · exact h1
  · intro t i _ ht
    exact force_inv_trans s t _ ht (particle_body_force_inv sqrt t i)

theorem predict_WF (s : GranSim α) (h : s.WF) : s.predict.WF := by
  obtain ⟨hp, hv, h2, h3, h4, hf, hr, hm⟩ := h
  have l (a b : α) (m n : Matrix α) (hm : m.length = s.Nparticles)
      (hn : n.length = s.Nparticles) : (scale a m).length = (scale b n).length := by
    rw [length_scale, length_scale, hm, hn]
  refine ⟨?_, ?_, ?_, ?_, h4, hf, hr, hm⟩
  · simp only [GranSim.predict, madd, scale, List.length_zipWith, List.length_map, hp, hv, h2,
      h3, h4, min_self]
  · simp only [GranSim.predict, madd, scale, List.length_zipWith, List.length_map, hp, hv, h2,
      h3, h4, min_self]
  · simp only [GranSim.predict, madd, scale, List.length_zipWith, List.length_map, hp, hv, h2,
      h3, h4, min_self]
  · simp only [GranSim.predict, madd, scale, List.length_zipWith, List.length_map, hp, hv, h2,
      h3, h4, min_self]

theorem compute_force_WF (sqrt : α → α) (s : GranSim α) (h : s.WF) :
    (s.compute_force sqrt).WF := by
  obtain ⟨f, hf, lf⟩ := compute_force_frame sqrt s
  rw [hf]
  obtain ⟨hp, hv, h2, h3, h4, h5, hr, hm⟩ := h
  exact ⟨hp, hv, h2, h3, h4, lf.trans h5, hr, hm⟩

theorem correct_WF (s : GranSim α) (h : s.WF) : s.correct.WF := by
  obtain ⟨hp, hv, h2, h3, h4, h5, hr, hm⟩ := h
  obtain ⟨⟨e1, e2, e3, e4, e5⟩, ⟨-, -, -, -, -, -, e7⟩, ⟨l1, l2, l3⟩, -⟩ :=
    correct_spec s hp hv h2
  simp only [] at e1 e2 e3 e4 e5 e7 l1 l2 l3
  refine ⟨?_, ?_, ?_, ?_, ?_, ?_, ?_, ?_⟩
  · show s.correct.position.length = s.correct.Nparticles
    rw [l1, e7, hp]
  · show s.correct.velocity.length = s.correct.Nparticles
    rw [l2, e7, hv]
  · show s.correct.rd2.length = s.correct.Nparticles
    rw [l3, e7, h2]
  · show s.correct.rd3.length = s.correct.Nparticles
    rw [e4, e7, h3]
  · show s.correct.rd4.length = s.correct.Nparticles
    rw [e5, e7, h4]
  · show s.correct.force.length = s.correct.Nparticles
    rw [e1, e7, h5]
  · show s.correct.radii.length = s.correct.Nparticles
    rw [e3, e7, hr]
  · show s.correct.mass.length = s.correct.Nparticles
    rw [e2, e7, hm]

theorem step_WF (sqrt : α → α) (s : GranSim α) (h : s.WF) : (s.step sqrt).WF :=
  correct_WF _ (compute_force_WF sqrt _ (predict_WF s h))

/-- One call of `step` adds `dt` to `time` and keeps `dt`, whatever the state. -/
theorem step_time (sqrt : α → α) (s : GranSim α) :
    (s.step sqrt).time = s.time + s.dt ∧ (s.step sqrt).dt = s.dt := by
  unfold GranSim.step
  obtain ⟨f, hf, -⟩ := compute_force_frame sqrt s.predict
  obtain ⟨-, ⟨-, -, -, -, e5, -⟩, -⟩ :=
    correct_loop_frame (19 / 180 * (s.predict.compute_force sqrt).dt ^ 2)
      (3 / 8 * (s.predict.compute_force sqrt).dt) (3 / 2 / (s.predict.compute_force sqrt).dt)
      (1 / (s.predict.compute_force sqrt).dt ^ 2) (s.predict.compute_force sqrt)
      (s.predict.compute_force sqrt).Nparticles
  refine ⟨?_, ?_⟩
  · rw [correct_time, hf]
    rfl
  · have : (s.predict.compute_force sqrt).correct.dt = (s.predict.compute_force sqrt).dt := e5
    rw [this, hf]
    rfl

theorem iterate_step_time (sqrt : α → α) (s : GranSim α) (k : Nat) :
    ((GranSim.step sqrt)^[k] s).time = s.time + k * s.dt ∧
      ((GranSim.step sqrt)^[k] s).dt = s.dt := by
  induction k with
  | zero => simp
  | succ k ih =>
    rw [Function.iterate_succ_apply']
    obtain ⟨h1, h2⟩ := step_time sqrt ((GranSim.step sqrt)^[k] s)
    rw [h1, h2, ih.1, ih.2]
    refine ⟨?_, rfl⟩
    push_cast
    ring

/-- C6: after `k` calls to `step` on a freshly constructed simulation `time` equals `k·dt`,
for every `k ≥ 0`; and in any state with `dt > 0`, `time` does not decrease across a call
to `step` (it grows by exactly `dt`). -/
theorem time_after_steps (sqrt : α → α) (position : Matrix α) (radii mass : Array α)
    (young_mod friction damp_normal damp_tangent dt : α) (k : Nat) :
    ((GranSim.step sqrt)^[k]
        (GranSim.ctor position radii mass young_mod friction damp_normal damp_tangent dt)).time
      = k * dt ∧
    ∀ s : GranSim α, 0 < s.dt →
      s.time ≤ (s.step sqrt).time ∧ (s.step sqrt).time = s.time + s.dt := by
  refine ⟨?_, ?_⟩
  · rw [(iterate_step_time sqrt _ k).1]
    simp [GranSim.ctor]
  · intro s hdt
    rw [(step_time sqrt s).1]
    exact ⟨le_add_of_nonneg_right hdt.le, rfl⟩

theorem time_after_steps_witness :
    ((GranSim.step Real.sqrt)^[3]
        (GranSim.ctor [(0, 2), (1, 2)] [1, 1] [1, 2] 1 1 1 1 (1 / 2))).time
      = (3 : Nat) * (1 / 2 : ℝ) ∧
    0 < (twoParticles ℝ).dt ∧
    (twoParticles ℝ).time ≤ ((twoParticles ℝ).step Real.sqrt).time ∧
    ((twoParticles ℝ).step Real.sqrt).time = (twoParticles ℝ).time + (twoParticles ℝ).dt :=
  ⟨(time_after_steps Real.sqrt [(0, 2), (1, 2)] [1, 1] [1, 2] 1 1 1 1 (1 / 2) 3).1,
    by simp [twoParticles],
    (time_after_steps Real.sqrt [(0, 2), (1, 2)] [1, 1] [1, 2] 1 1 1 1 (1 / 2) 3).2
      (twoParticles ℝ) (by simp [twoParticles])⟩

/-! ## The corrector, row by row -/

/-- What `correct` does to row `i` of `position` and `velocity`, with `corr` read from the
state on entry. -/
theorem correct_rows (s : GranSim α) (h : s.WF) (i : Nat) (hi : i < s.Nparticles) :
    row s.correct.position i = row s.position i + (19 / 180 * s.dt ^ 2) • s.corr i ∧
    row s.correct.velocity i = row s.velocity i + (3 / 8 * s.dt) • s.corr i := by
  obtain ⟨hp, hv, h2, -, -, -, -, -⟩ := h
  obtain ⟨-, -, -, hrow⟩ := correct_spec s hp hv h2
  have h1 := (hrow i).1
  have h3 := (hrow i).2.1
  rw [if_pos hi] at h1 h3
  exact ⟨h1, h3⟩

/-- C3: for every particle `i`, with corr = force(i)/mass(i) − rd2(i) read from the state on
entry, `correct` yields position(i)' = position(i) + (19/180·dt²)·corr and
velocity(i)' = velocity(i) + (3/8·dt)·corr. -/
theorem correct_position_velocity (s : GranSim α) (h : s.WF) (i : Nat)
    (hi : i < s.Nparticles) :
    row s.correct.position i = row s.position i + (19 / 180 * s.dt ^ 2) •
      (((row s.force i).1 / coeff s.mass i, (row s.force i).2 / coeff s.mass i)
        - row s.rd2 i) ∧
    row s.correct.velocity i = row s.velocity i + (3 / 8 * s.dt) •
      (((row s.force i).1 / coeff s.mass i, (row s.force i).2 / coeff s.mass i)
        - row s.rd2 i) :=
  correct_rows s h i hi

theorem correct_position_velocity_witness :
    (twoParticles ℚ).WF ∧ 1 < (twoParticles ℚ).Nparticles ∧
    row (twoParticles ℚ).correct.position 1 = row (twoParticles ℚ).position 1
      + (19 / 180 * (twoParticles ℚ).dt ^ 2) •
        (((row (twoParticles ℚ).force 1).1 / coeff (twoParticles ℚ).mass 1,
          (row (twoParticles ℚ).force 1).2 / coeff (twoParticles ℚ).mass 1)
          - row (twoParticles ℚ).rd2 1) ∧
    row (twoParticles ℚ).correct.velocity 1 = row (twoParticles ℚ).velocity 1
      + (3 / 8 * (twoParticles ℚ).dt) •
        (((row (twoParticles ℚ).force 1).1 / coeff (twoParticles ℚ).mass 1,
          (row (twoParticles ℚ).force 1).2 / coeff (twoParticles ℚ).mass 1)
          - row (twoParticles ℚ).rd2 1) :=
  ⟨twoParticles_WF ℚ, by decide,
    correct_position_velocity (twoParticles ℚ) (twoParticles_WF ℚ) 1 (by decide)⟩

/-- What `correct` does to `rd2` and `rd4`: `rd2.row(i)` ends as `accel = force(i)/mass(i)`
and `rd4` is not changed, because `corr` is re-read after `rd2.row(i) = accel`. -/
theorem correct_rd2_rd4 (s : GranSim α) (h : s.WF) (i : Nat) (hi : i < s.Nparticles) :
    row s.correct.rd2 i = s.accel i ∧ s.correct.rd4 = s.rd4 := by
  obtain ⟨hp, hv, h2, -, -, -, -, -⟩ := h
  obtain ⟨⟨-, -, -, -, e4⟩, -, -, hrow⟩ := correct_spec s hp hv h2
  have h1 := (hrow i).2.2
  rw [if_pos hi] at h1
  exact ⟨h1, e4⟩

/-! ## Free fall of a single particle -/

/-- The state on entry to `correct` in the first `step` of a single particle that does not
touch the floor: nothing has moved, and the force is gravity. -/
theorem free_fall_entry (sqrt : α → α) (x y r m E μ γn γt dt : α) (hy : r ≤ y) :
    (((GranSim.ctor [(x, y)] [r] [m] E μ γn γt dt).predict).compute_force sqrt)
      = { GranSim.ctor [(x, y)] [r] [m] E μ γn γt dt with force := [(0, m * (-9.8))] } := by
  have hs : (GranSim.ctor [(x, y)] [r] [m] E μ γn γt dt).predict
      = GranSim.ctor [(x, y)] [r] [m] E μ γn γt dt := by
    simp [GranSim.predict, GranSim.ctor, Matrix.Zero, madd, scale]
  rw [hs]
  obtain ⟨f, hf, lf⟩ := compute_force_frame sqrt (GranSim.ctor [(x, y)] [r] [m] E μ γn γt dt)
  have hrow := compute_force_rows_no_contact sqrt
    (GranSim.ctor [(x, y)] [r] [m] E μ γn γt dt) rfl
    (fun i j hij hj => by
      have : j < 1 := hj
      omega) 0 (Nat.zero_lt_one)
  rw [hf] at hrow ⊢
  have hno : ¬ (r - y > 0) := by
    rw [gt_iff_lt, sub_pos]
    exact not_lt.mpr hy
  have hF : GranSim.particle_F sqrt (GranSim.ctor [(x, y)] [r] [m] E μ γn γt dt) 0
      = (0, m * (-9.8)) := by
    simp [GranSim.particle_F, GranSim.ctor, coeff, row, hno]
  rw [hF] at hrow
  have lf1 : f.length = 1 := lf
  match f, lf1, hrow with
  | [v], _, hv =>
    have : v = (0, m * (-9.8)) := by simpa [row] using hv
    rw [this]

theorem free_fall_entry_WF (x y r m E μ γn γt dt f : α) :
    ({ GranSim.ctor [(x, y)] [r] [m] E μ γn γt dt with force := [(0, f)] } : GranSim α).WF :=
  ⟨rfl, rfl, rfl, rfl, rfl, rfl, rfl, rfl⟩

/-- The first `step` of a single particle that does not touch the floor. -/
theorem free_fall_step (sqrt : α → α) (x y r m E μ γn γt dt : α) (hy : r ≤ y) (hm : 0 < m) :
    row ((GranSim.ctor [(x, y)] [r] [m] E μ γn γt dt).step sqrt).velocity 0
      = (0, 3 / 8 * dt * (-9.8)) ∧
    row ((GranSim.ctor [(x, y)] [r] [m] E μ γn γt dt).step sqrt).position 0
      = (x, y + 19 / 180 * dt ^ 2 * (-9.8)) ∧
    row ((GranSim.ctor [(x, y)] [r] [m] E μ γn γt dt).step sqrt).rd2 0 = (0, -9.8) ∧
    ((GranSim.ctor [(x, y)] [r] [m] E μ γn γt dt).step sqrt).rd4 = [(0, 0)] := by
  have hm0 : m ≠ 0 := hm.ne'
  unfold GranSim.step
  rw [free_fall_entry sqrt x y r m E μ γn γt dt hy]
  have hWF := free_fall_entry_WF x y r m E μ γn γt dt (m * (-9.8))
  obtain ⟨hp, hv⟩ := correct_rows _ hWF 0 Nat.zero_lt_one
  obtain ⟨h2, h4⟩ := correct_rd2_rd4 _ hWF 0 Nat.zero_lt_one
  have hacc : -(m * 9.8) / m = -9.8 := by rw [neg_div, mul_div_cancel_left₀ _ hm0]
  refine ⟨?_, ?_, ?_, ?_⟩
  · rw [hv]
    simp [GranSim.corr, GranSim.accel, GranSim.ctor, Matrix.Zero, row, coeff, hacc]
  · rw [hp]
    simp [GranSim.corr, GranSim.accel, GranSim.ctor, Matrix.Zero, row, coeff, hacc]
  · rw [h2]
    simp [GranSim.accel, GranSim.ctor, row, coeff, hacc]
  · rw [h4]
    simp [GranSim.ctor, Matrix.Zero]

/-- C1 (the code departs from the claim): a single particle of mass 1 in free fall, `dt = 1`,
in the state on entry to `correct` during its first `step`.  There accel = (0, −9.8) and the
predicted rd2 is 0, so accel + c3·corr = (0, −24.5); `correct` leaves rd2 = (0, −9.8),
which is `accel` alone: the `c3·corr` term is lost, because `corr` is an unevaluated
expression that is read again after `rd2.row(i) = accel`. -/
theorem correct_rd2_free_fall :
    row (((freeFall ℝ).predict).compute_force Real.sqrt).correct.rd2 0 = (0, -9.8) ∧
    (((freeFall ℝ).predict).compute_force Real.sqrt).accel 0
      + (3 / 2 / (((freeFall ℝ).predict).compute_force Real.sqrt).dt)
        • ((((freeFall ℝ).predict).compute_force Real.sqrt).accel 0
          - row (((freeFall ℝ).predict).compute_force Real.sqrt).rd2 0) = (0, -24.5) := by
  refine ⟨(free_fall_step Real.sqrt 0 10 1 1 1 1 1 1 1 (by norm_num) one_pos).2.2.1, ?_⟩
  unfold freeFall
  rw [free_fall_entry Real.sqrt 0 10 1 1 1 1 1 1 1 (by norm_num)]
  simp [GranSim.accel, GranSim.ctor, Matrix.Zero, row, coeff]
  norm_num

/-- C2 (the code departs from the claim): in the same state, rd4 is 0 on entry and
c4·corr = (0, −9.8), so the claim gives rd4 = (0, −9.8) after `correct`; the code leaves
rd4 = 0, because `corr` is read after `rd2.row(i) = accel` and is zero by then. -/
theorem correct_rd4_free_fall :
    row (((freeFall ℝ).predict).compute_force Real.sqrt).correct.rd4 0 = (0, 0) ∧
    row (((freeFall ℝ).predict).compute_force Real.sqrt).rd4 0
      + (1 / (((freeFall ℝ).predict).compute_force Real.sqrt).dt ^ 2)
        • ((((freeFall ℝ).predict).compute_force Real.sqrt).accel 0
          - row (((freeFall ℝ).predict).compute_force Real.sqrt).rd2 0) = (0, -9.8) := by
  have h4 := (free_fall_step Real.sqrt 0 10 1 1 1 1 1 1 1 (by norm_num) one_pos).2.2.2
  refine ⟨?_, ?_⟩
  · have : (((freeFall ℝ).predict).compute_force Real.sqrt).correct.rd4 = [(0, 0)] := h4
    rw [this]
    rfl
  · unfold freeFall
    rw [free_fall_entry Real.sqrt 0 10 1 1 1 1 1 1 1 (by norm_num)]
    simp [GranSim.accel, GranSim.ctor, Matrix.Zero, row, coeff]

/-- C7, as the claim states it, fails: a particle of radius 1 and mass 1 constructed at
height 10 with `dt = 1` does not have velocity `(0, −9.8·dt)` after one `step`. -/
theorem free_fall_claimed_velocity_fails :
    ((1 : ℝ) ≤ 10 ∧ (0 : ℝ) < 1 ∧ 0 < (freeFall ℝ).dt) ∧
    row ((freeFall ℝ).step Real.sqrt).velocity 0 ≠ (0, -9.8 * (freeFall ℝ).dt) := by
  refine ⟨⟨by norm_num, one_pos, by simp [freeFall, GranSim.ctor]⟩, ?_⟩
  have h := (free_fall_step Real.sqrt 0 10 1 1 1 1 1 1 1 (by norm_num) one_pos).1
  have h2 : row ((freeFall ℝ).step Real.sqrt).velocity 0 = (0, 3 / 8 * 1 * (-9.8)) := h
  rw [h2]
  intro hc
  have := congrArg Prod.snd hc
  simp [freeFall, GranSim.ctor] at this
  norm_num at this

/-- C7, amended: for a single particle constructed with position.y ≥ radius (no floor
contact) and positive mass, after one call to `step` its velocity equals
`(0, −(3/8)·9.8·dt)` and its x position is unchanged. -/
theorem free_fall_first_step (sqrt : α → α) (x y r m E μ γn γt dt : α) (hy : r ≤ y)
    (hm : 0 < m) :
    row ((GranSim.ctor [(x, y)] [r] [m] E μ γn γt dt).step sqrt).velocity 0
      = (0, -(3 / 8) * 9.8 * dt) ∧
    (row ((GranSim.ctor [(x, y)] [r] [m] E μ γn γt dt).step sqrt).position 0).1 = x := by
  obtain ⟨hv, hp, -, -⟩ := free_fall_step sqrt x y r m E μ γn γt dt hy hm
  rw [hv, hp]
  refine ⟨?_, rfl⟩
  ext
  · rfl
  · show 3 / 8 * dt * (-9.8) = -(3 / 8) * 9.8 * dt
    ring

theorem free_fall_first_step_witness :
    (1 : ℝ) ≤ 10 ∧ (0 : ℝ) < 2 ∧
    row ((GranSim.ctor [(5, 10)] [1] [2] 1 1 1 1 (1 / 4)).step Real.sqrt).velocity 0
      = (0, -(3 / 8) * 9.8 * (1 / 4 : ℝ)) ∧
    (row ((GranSim.ctor [(5, 10)] [1] [2] 1 1 1 1 (1 / 4)).step Real.sqrt).position 0).1
      = (5 : ℝ) :=
  ⟨by norm_num, by norm_num,
    free_fall_first_step Real.sqrt 5 10 1 2 1 1 1 1 (1 / 4) (by norm_num) (by norm_num)⟩

/-! ## The contact law -/

/-- The pair force in terms of its named parts: `F = Fn·n − sgn(dv_t)·Ft·t`. -/
theorem pair_F_eq (sqrt : α → α) (s : GranSim α) (i j : Nat) :
    s.pair_F sqrt i j =
      ((s.pair_n sqrt i j).1 * s.pair_Fn sqrt i j
          - (s.pair_t sqrt i j).1 * sgn (s.pair_dv_t sqrt i j) * s.pair_Ft sqrt i j,
        (s.pair_n sqrt i j).2 * s.pair_Fn sqrt i j
          - (s.pair_t sqrt i j).2 * sgn (s.pair_dv_t sqrt i j) * s.pair_Ft sqrt i j) :=
  rfl

/-- The per-particle loop adds gravity and the floor's contribution. -/
theorem particle_F_eq (sqrt : α → α) (s : GranSim α) (i : Nat) :
    s.particle_F sqrt i
      = (coeff s.mass i * 0, coeff s.mass i * (-9.8)) + s.floor_contribution sqrt i :=
  rfl

theorem Fn_mag_nonneg (sqrt : α → α) (k γ reff o dv_n : α) :
    0 ≤ Fn_mag sqrt k γ reff o dv_n :=
  le_max_left _ _

/-- The component of the pair force along the normal is `Fn·(n·n)`. -/
theorem dot_pair_n_pair_F (sqrt : α → α) (s : GranSim α) (i j : Nat) :
    dot (s.pair_n sqrt i j) (s.pair_F sqrt i j)
      = s.pair_Fn sqrt i j * dot (s.pair_n sqrt i j) (s.pair_n sqrt i j) := by
  rw [pair_F_eq]
  simp only [dot, GranSim.pair_t]
  ring

theorem squaredNorm_pos (v : vec2 α) (h : v ≠ 0) : 0 < squaredNorm v := by
  have h0 : 0 ≤ squaredNorm v := add_nonneg (mul_self_nonneg _) (mul_self_nonneg _)
  rcases h0.eq_or_lt with he | hl
  · exfalso
    have h2 := mul_self_add_mul_self_eq_zero.mp he.symm
    exact h (Prod.ext h2.1 h2.2)
  · exact hl

/-- Distinct centres have a unit normal. -/
theorem pair_n_unit (s : GranSim ℝ) (i j : Nat) (h : row s.position i ≠ row s.position j) :
    dot (s.pair_n Real.sqrt i j) (s.pair_n Real.sqrt i j) = 1 := by
  have hpos := squaredNorm_pos (row s.position i - row s.position j) (sub_ne_zero.mpr h)
  have hsq := Real.mul_self_sqrt hpos.le
  simp only [dot, GranSim.pair_n]
  rw [div_mul_div_comm, div_mul_div_comm, ← add_div, hsq]
  exact div_self hpos.ne'

/-- For a positive overlap, `Fn` is the positive part of a positive multiple of
`overlap + dampNormal·dv_n`. -/
theorem Fn_mag_pos_iff (k γ reff o dv_n : ℝ) (hr : 0 < reff) (hk : 0 < k) (ho : 0 < o) :
    0 < Fn_mag Real.sqrt k γ reff o dv_n ↔ 0 < o + γ * dv_n := by
  have hc : 0 < Real.sqrt reff * k * Real.sqrt o :=
    mul_pos (mul_pos (Real.sqrt_pos.mpr hr) hk) (Real.sqrt_pos.mpr ho)
  unfold Fn_mag
  rw [lt_max_iff]
  constructor
  · rintro (h | h)
    · exact absurd h (lt_irrefl 0)
    · exact (mul_pos_iff_of_pos_left hc).mp h
  · intro h
    exact Or.inr (mul_pos hc h)

theorem Fn_mag_lt (k γ reff dv_n o1 o2 : ℝ) (hr : 0 < reff) (hk : 0 < k) (h1 : 0 < o1)
    (h12 : o1 < o2) (h2 : 0 < o2 + γ * dv_n) :
    Fn_mag Real.sqrt k γ reff o1 dv_n < Fn_mag Real.sqrt k γ reff o2 dv_n := by
  have hc : 0 < Real.sqrt reff * k := mul_pos (Real.sqrt_pos.mpr hr) hk
  have hs1 : 0 < Real.sqrt o1 := Real.sqrt_pos.mpr h1
  have hs : Real.sqrt o1 < Real.sqrt o2 := Real.sqrt_lt_sqrt h1.le h12
  have hpos2 : 0 < Real.sqrt reff * k * Real.sqrt o2 * (o2 + γ * dv_n) :=
    mul_pos (mul_pos hc (hs1.trans hs)) h2
  unfold Fn_mag
  rw [max_eq_right hpos2.le]
  apply max_lt hpos2
  rcases le_or_lt (o1 + γ * dv_n) 0 with hle | hgt
  · exact lt_of_le_of_lt (mul_nonpos_of_nonneg_of_nonpos (mul_pos hc hs1).le hle) hpos2
  · have ha : Real.sqrt reff * k * Real.sqrt o1 < Real.sqrt reff * k * Real.sqrt o2 :=
      mul_lt_mul_of_pos_left hs hc
    have hb : o1 + γ * dv_n < o2 + γ * dv_n := by linarith
    exact mul_lt_mul ha hb.le hgt (mul_pos hc (hs1.trans hs)).le

/-- C9, as the claim states it, fails: with reff = stiffness = dampNormal = 1 and
dv_n = −10 (the particles separate fast), `Fn` is 0 at overlap 1, hence not positive, and
`Fn(1) < Fn(2)` does not hold either. -/
theorem Fn_mag_not_always_positive :
    ((0 : ℝ) < 1 ∧ (0 : ℝ) ≤ 1 ∧ (1 : ℝ) < 2) ∧
    ¬ (0 < Fn_mag Real.sqrt 1 1 1 1 (-10)) ∧
    ¬ (Fn_mag Real.sqrt 1 1 1 1 (-10) < Fn_mag Real.sqrt 1 1 1 2 (-10)) := by
  have e1 : Fn_mag Real.sqrt 1 1 1 1 (-10) = 0 := by
    unfold Fn_mag
    apply max_eq_left
    have : (0 : ℝ) ≤ Real.sqrt 1 * 1 * Real.sqrt 1 := by positivity
    nlinarith
  have e2 : Fn_mag Real.sqrt 1 1 1 2 (-10) = 0 := by
    unfold Fn_mag
    apply max_eq_left
    have : (0 : ℝ) ≤ Real.sqrt 1 * 1 * Real.sqrt 2 := by positivity
    nlinarith
  refine ⟨⟨one_pos, zero_le_one, one_lt_two⟩, ?_, ?_⟩
  · rw [e1]
    exact lt_irrefl 0
  · rw [e1, e2]
    exact lt_irrefl 0

/-- C9, amended: for reff > 0, stiffness > 0, dampNormal ≥ 0 and any dv_n, the normal force
magnitude `Fn(o) = max(0, √reff·stiffness·√o·(o + dampNormal·dv_n))` satisfies, for every
o > 0, `Fn(o) > 0` exactly when `o + dampNormal·dv_n > 0` (so for every o > 0 when
dv_n ≥ 0), and `Fn(o1) < Fn(o2)` whenever `0 < o1 < o2` and `o2 + dampNormal·dv_n > 0`. -/
theorem Fn_mag_pos_strict_mono (k γ reff dv_n : ℝ) (hr : 0 < reff) (hk : 0 < k)
    (hγ : 0 ≤ γ) :
    (∀ o, 0 < o → (0 < Fn_mag Real.sqrt k γ reff o dv_n ↔ 0 < o + γ * dv_n)) ∧
    (0 ≤ dv_n → ∀ o, 0 < o → 0 < Fn_mag Real.sqrt k γ reff o dv_n) ∧
    (∀ o1 o2, 0 < o1 → o1 < o2 → 0 < o2 + γ * dv_n →
      Fn_mag Real.sqrt k γ reff o1 dv_n < Fn_mag Real.sqrt k γ reff o2 dv_n) := by
  refine ⟨fun o ho => Fn_mag_pos_iff k γ reff o dv_n hr hk ho, ?_,
    fun o1 o2 h1 h12 h2 => Fn_mag_lt k γ reff dv_n o1 o2 hr hk h1 h12 h2⟩
  intro hdv o ho
  exact (Fn_mag_pos_iff k γ reff o dv_n hr hk ho).mpr
    (add_pos_of_pos_of_nonneg ho (mul_nonneg hγ hdv))

theorem Fn_mag_pos_strict_mono_witness :
    ((0 : ℝ) < 2 ∧ (0 : ℝ) < 3 ∧ (0 : ℝ) ≤ 1 ∧ (0 : ℝ) < 1 ∧ (1 : ℝ) < 4 ∧
      (0 : ℝ) < 4 + 1 * (-2) ∧ (0 : ℝ) ≤ 5) ∧
    (0 < Fn_mag Real.sqrt 3 1 2 4 (-2) ↔ (0 : ℝ) < 4 + 1 * (-2)) ∧
    0 < Fn_mag Real.sqrt 3 1 2 4 5 ∧
    Fn_mag Real.sqrt 3 1 2 1 (-2) < Fn_mag Real.sqrt 3 1 2 4 (-2) :=
  ⟨⟨by norm_num, by norm_num, by norm_num, by norm_num, by norm_num, by norm_num,
      by norm_num⟩,
    (Fn_mag_pos_strict_mono 3 1 2 (-2) (by norm_num) (by norm_num) (by norm_num)).1 4
      (by norm_num),
    (Fn_mag_pos_strict_mono 3 1 2 5 (by norm_num) (by norm_num) (by norm_num)).2.1
      (by norm_num) 4 (by norm_num),
    (Fn_mag_pos_strict_mono 3 1 2 (-2) (by norm_num) (by norm_num) (by norm_num)).2.2 1 4
      (by norm_num) (by norm_num) (by norm_num)⟩

/-- C10: the normal force is never attractive.  The magnitude `Fn` of both phases is ≥ 0 for
all inputs and is 0 whenever overlap ≤ 0; the floor's contribution to the y-component of
`force(i)` is ≥ 0 for every particle and every state; and for an overlapping pair with
distinct centres the component along `n = dr/‖dr‖` of the force the pair adds to particle
`i` is `Fn`, which is ≥ 0. -/
theorem normal_force_never_attractive (s : GranSim ℝ) (i j : Nat) (k γ reff o dv_n : ℝ) :
    0 ≤ Fn_mag Real.sqrt k γ reff o dv_n ∧
    (o ≤ 0 → Fn_mag Real.sqrt k γ reff o dv_n = 0) ∧
    (0 ≤ s.pair_Fn Real.sqrt i j ∧ 0 ≤ (s.floor_F Real.sqrt i).2) ∧
    0 ≤ (s.floor_contribution Real.sqrt i).2 ∧
    (s.condition i j → row s.position i ≠ row s.position j →
      dot (s.pair_n Real.sqrt i j) (s.pair_F Real.sqrt i j) = s.pair_Fn Real.sqrt i j ∧
      0 ≤ dot (s.pair_n Real.sqrt i j) (s.pair_F Real.sqrt i j)) := by
  refine ⟨Fn_mag_nonneg _ _ _ _ _ _, ?_, ⟨Fn_mag_nonneg _ _ _ _ _ _, Fn_mag_nonneg _ _ _ _ _ _⟩,
    ?_, ?_⟩
  · intro ho
    unfold Fn_mag
    rw [Real.sqrt_eq_zero_of_nonpos ho]
    simp
  · unfold GranSim.floor_contribution
    split
    · exact Fn_mag_nonneg _ _ _ _ _ _
    · exact le_refl _
  · intro _ hne
    have h1 : dot (s.pair_n Real.sqrt i j) (s.pair_F Real.sqrt i j)
        = s.pair_Fn Real.sqrt i j := by
      rw [dot_pair_n_pair_F, pair_n_unit s i j hne, mul_one]
    refine ⟨h1, ?_⟩
    rw [h1]
    exact Fn_mag_nonneg _ _ _ _ _ _

theorem twoParticles_distinct :
    row (twoParticles ℝ).position 0 ≠ row (twoParticles ℝ).position 1 := by
  simp [twoParticles, row]

theorem normal_force_never_attractive_witness :
    ((-1 : ℝ) ≤ 0 ∧ (twoParticles ℝ).condition 0 1 ∧
      row (twoParticles ℝ).position 0 ≠ row (twoParticles ℝ).position 1) ∧
    Fn_mag Real.sqrt 1 1 1 (-1) 3 = 0 ∧
    dot ((twoParticles ℝ).pair_n Real.sqrt 0 1) ((twoParticles ℝ).pair_F Real.sqrt 0 1)
      = (twoParticles ℝ).pair_Fn Real.sqrt 0 1 ∧
    0 ≤ dot ((twoParticles ℝ).pair_n Real.sqrt 0 1) ((twoParticles ℝ).pair_F Real.sqrt 0 1) :=
  ⟨⟨by norm_num, twoParticles_condition, twoParticles_distinct⟩,
    (normal_force_never_attractive (twoParticles ℝ) 0 1 1 1 1 (-1) 3).2.1 (by norm_num),
    (normal_force_never_attractive (twoParticles ℝ) 0 1 1 1 1 (-1) 3).2.2.2.2
      twoParticles_condition twoParticles_distinct⟩

/-! ## Friction -/

/-- The floor force in terms of its named parts: `(−sgn(dv_t)·Ft, Fn)` with
`dv_t = velocity(i).x`. -/
theorem floor_F_eq (sqrt : α → α) (s : GranSim α) (i : Nat) :
    s.floor_F sqrt i = (-sgn (row s.velocity i).1 * s.floor_Ft sqrt i, s.floor_Fn sqrt i) :=
  rfl

theorem sgn_zero : sgn (0 : α) = 0 := by
  simp [sgn]

theorem sgn_mul_self (x : α) : sgn x * x = |x| := by
  unfold sgn
  rcases lt_trichotomy x 0 with h | h | h
  · rw [if_neg (not_lt.mpr h.le), if_pos h, abs_of_neg h]
    ring
  · subst h
    simp
  · rw [if_pos h, abs_of_pos h, one_mul]

theorem Ft_mag_nonneg (μ γ Fn x : α) (hμ : 0 ≤ μ) (hγ : 0 ≤ γ) (hF : 0 ≤ Fn) :
    0 ≤ Ft_mag μ γ Fn x :=
  le_min (mul_nonneg hμ hF) (mul_nonneg hγ (abs_nonneg x))

/-- The friction term `sgn(dv_t)·Ft` has magnitude `Ft`. -/
theorem abs_sgn_mul_Ft (μ γ Fn x : α) (hμ : 0 ≤ μ) (hγ : 0 ≤ γ) (hF : 0 ≤ Fn) :
    |sgn x * Ft_mag μ γ Fn x| = Ft_mag μ γ Fn x := by
  have h0 := Ft_mag_nonneg μ γ Fn x hμ hγ hF
  rcases lt_trichotomy x 0 with h | h | h
  · have : sgn x = -1 := by
      unfold sgn
      rw [if_neg (not_lt.mpr h.le), if_pos h]
    rw [this, neg_one_mul, abs_neg, abs_of_nonneg h0]
  · subst h
    rw [sgn_zero, zero_mul, abs_zero]
    unfold Ft_mag
    rw [abs_zero, mul_zero, min_eq_right (mul_nonneg hμ hF)]
  · have : sgn x = 1 := by
      unfold sgn
      rw [if_pos h]
    rw [this, one_mul, abs_of_nonneg h0]

/-- The friction term `−sgn(dv_t)·Ft` opposes `dv_t`. -/
theorem neg_sgn_mul_Ft_opposes (μ γ Fn x : α) (hμ : 0 ≤ μ) (hγ : 0 ≤ γ) (hF : 0 ≤ Fn) :
    -(sgn x * Ft_mag μ γ Fn x) * x ≤ 0 := by
  have h0 := Ft_mag_nonneg μ γ Fn x hμ hγ hF
  have : -(sgn x * Ft_mag μ γ Fn x) * x = -(Ft_mag μ γ Fn x * |x|) := by
    rw [← sgn_mul_self x]
    ring
  rw [this]
  exact neg_nonpos.mpr (mul_nonneg h0 (abs_nonneg x))

/-- The component of the pair force along the tangent is `−sgn(dv_t)·Ft·(n·n)`. -/
theorem dot_pair_t_pair_F (sqrt : α → α) (s : GranSim α) (i j : Nat) :
    dot (s.pair_t sqrt i j) (s.pair_F sqrt i j)
      = -(sgn (s.pair_dv_t sqrt i j) * s.pair_Ft sqrt i j)
        * dot (s.pair_n sqrt i j) (s.pair_n sqrt i j) := by
  rw [pair_F_eq]
  simp only [dot, GranSim.pair_t]
  ring

/-- C11: friction cap.  For friction ≥ 0 and dampTangent ≥ 0, in a pairwise contact with
distinct centres the component along `t = (−n.y, n.x)` of the force added to particle `i`
has absolute value exactly `min(friction·Fn, dampTangent·|dv_t|)`, so it exceeds neither
`friction·Fn` nor `dampTangent·|dv_t|`, and it opposes `dv_t` in sign; the same holds in a
floor contact for the x-component of the force added to particle `i`, with
`dv_t = velocity(i).x`. -/
theorem friction_cap (s : GranSim ℝ) (i j : Nat) (hμ : 0 ≤ s.friction)
    (hγ : 0 ≤ s.damp_tangent) :
    (s.condition i j → row s.position i ≠ row s.position j →
      |dot (s.pair_t Real.sqrt i j) (s.pair_F Real.sqrt i j)|
          = min (s.friction * s.pair_Fn Real.sqrt i j)
              (s.damp_tangent * |s.pair_dv_t Real.sqrt i j|) ∧
        |dot (s.pair_t Real.sqrt i j) (s.pair_F Real.sqrt i j)|
          ≤ s.friction * s.pair_Fn Real.sqrt i j ∧
        |dot (s.pair_t Real.sqrt i j) (s.pair_F Real.sqrt i j)|
          ≤ s.damp_tangent * |s.pair_dv_t Real.sqrt i j| ∧
        dot (s.pair_t Real.sqrt i j) (s.pair_F Real.sqrt i j) * s.pair_dv_t Real.sqrt i j
          ≤ 0) ∧
    (0 < coeff s.radii i - (row s.position i).2 →
      |(s.floor_contribution Real.sqrt i).1|
          = min (s.friction * s.floor_Fn Real.sqrt i)
              (s.damp_tangent * |(row s.velocity i).1|) ∧
        |(s.floor_contribution Real.sqrt i).1| ≤ s.friction * s.floor_Fn Real.sqrt i ∧
        |(s.floor_contribution Real.sqrt i).1| ≤ s.damp_tangent * |(row s.velocity i).1| ∧
        (s.floor_contribution Real.sqrt i).1 * (row s.velocity i).1 ≤ 0) := by
  refine ⟨?_, ?_⟩
  · intro _ hne
    have hF : 0 ≤ s.pair_Fn Real.sqrt i j := Fn_mag_nonneg _ _ _ _ _ _
    have hd : dot (s.pair_t Real.sqrt i j) (s.pair_F Real.sqrt i j)
        = -(sgn (s.pair_dv_t Real.sqrt i j) * s.pair_Ft Real.sqrt i j) := by
      rw [dot_pair_t_pair_F, pair_n_unit s i j hne, mul_one]
    have habs : |dot (s.pair_t Real.sqrt i j) (s.pair_F Real.sqrt i j)|
        = min (s.friction * s.pair_Fn Real.sqrt i j)
            (s.damp_tangent * |s.pair_dv_t Real.sqrt i j|) := by
      rw [hd, abs_neg]
      exact abs_sgn_mul_Ft _ _ _ _ hμ hγ hF
    refine ⟨habs, ?_, ?_, ?_⟩
    · rw [habs]
      exact min_le_left _ _
    · rw [habs]
      exact min_le_right _ _
    · rw [hd]
      exact neg_sgn_mul_Ft_opposes _ _ _ _ hμ hγ hF
  · intro ho
    have hF : 0 ≤ s.floor_Fn Real.sqrt i := Fn_mag_nonneg _ _ _ _ _ _
    have hd : (s.floor_contribution Real.sqrt i).1
        = -(sgn (row s.velocity i).1 * s.floor_Ft Real.sqrt i) := by
      unfold GranSim.floor_contribution
      rw [if_pos ho, floor_F_eq]
      exact neg_mul _ _
    have habs : |(s.floor_contribution Real.sqrt i).1|
        = min (s.friction * s.floor_Fn Real.sqrt i)
            (s.damp_tangent * |(row s.velocity i).1|) := by
      rw [hd, abs_neg]
      exact abs_sgn_mul_Ft _ _ _ _ hμ hγ hF
    refine ⟨habs, ?_, ?_, ?_⟩
    · rw [habs]
      exact min_le_left _ _
    · rw [habs]
      exact min_le_right _ _
    · rw [hd]
      exact neg_sgn_mul_Ft_opposes _ _ _ _ hμ hγ hF

theorem onFloor_WF (β : Type) [LinearOrderedField β] (vx vy : β) : (onFloor β vx vy).WF :=
  ⟨rfl, rfl, rfl, rfl, rfl, rfl, rfl, rfl⟩

theorem onFloor_overlap (vx vy : ℝ) :
    0 < coeff (onFloor ℝ vx vy).radii 0 - (row (onFloor ℝ vx vy).position 0).2 := by
  simp [onFloor, coeff, row]
  norm_num

theorem twoParticles_params :
    0 ≤ (twoParticles ℝ).friction ∧ 0 ≤ (twoParticles ℝ).damp_tangent := by
  simp [twoParticles]

theorem onFloor_params (vx vy : ℝ) :
    0 ≤ (onFloor ℝ vx vy).friction ∧ 0 ≤ (onFloor ℝ vx vy).damp_tangent := by
  simp [onFloor]

theorem friction_cap_witness :
    (0 ≤ (twoParticles ℝ).friction ∧ 0 ≤ (twoParticles ℝ).damp_tangent ∧
      (twoParticles ℝ).condition 0 1 ∧
      row (twoParticles ℝ).position 0 ≠ row (twoParticles ℝ).position 1 ∧
      0 ≤ (onFloor ℝ 2 (-1)).friction ∧ 0 ≤ (onFloor ℝ 2 (-1)).damp_tangent ∧
      0 < coeff (onFloor ℝ 2 (-1)).radii 0 - (row (onFloor ℝ 2 (-1)).position 0).2) ∧
    |dot ((twoParticles ℝ).pair_t Real.sqrt 0 1) ((twoParticles ℝ).pair_F Real.sqrt 0 1)|
      = min ((twoParticles ℝ).friction * (twoParticles ℝ).pair_Fn Real.sqrt 0 1)
          ((twoParticles ℝ).damp_tangent * |(twoParticles ℝ).pair_dv_t Real.sqrt 0 1|) ∧
    |((onFloor ℝ 2 (-1)).floor_contribution Real.sqrt 0).1|
      = min ((onFloor ℝ 2 (-1)).friction * (onFloor ℝ 2 (-1)).floor_Fn Real.sqrt 0)
          ((onFloor ℝ 2 (-1)).damp_tangent * |(row (onFloor ℝ 2 (-1)).velocity 0).1|) :=
  ⟨⟨twoParticles_params.1, twoParticles_params.2, twoParticles_condition,
      twoParticles_distinct, (onFloor_params 2 (-1)).1, (onFloor_params 2 (-1)).2,
      onFloor_overlap 2 (-1)⟩,
    ((friction_cap (twoParticles ℝ) 0 1 twoParticles_params.1 twoParticles_params.2).1
      twoParticles_condition twoParticles_distinct).1,
    ((friction_cap (onFloor ℝ 2 (-1)) 0 0 (onFloor_params 2 (-1)).1
      (onFloor_params 2 (-1)).2).2 (onFloor_overlap 2 (-1))).1⟩

/-- C12: zero tangential velocity gives zero friction.  For an overlapping pair with
`dv_t = t·(vel(i) − vel(j)) = 0` the force the pair adds to particle `i` is exactly `Fn·n`,
whatever the parameters (negative friction or dampTangent included); and a particle in
floor contact with `velocity(i).x = 0` receives a floor force `(0, Fn)`. -/
theorem zero_tangential_velocity (sqrt : α → α) (s : GranSim α) (i j : Nat) :
    (s.condition i j → s.pair_dv_t sqrt i j = 0 →
      s.pair_F sqrt i j = s.pair_Fn sqrt i j • s.pair_n sqrt i j) ∧
    (0 < coeff s.radii i - (row s.position i).2 → (row s.velocity i).1 = 0 →
      (s.floor_contribution sqrt i).1 = 0 ∧
      s.floor_contribution sqrt i = (0, s.floor_Fn sqrt i)) := by
  refine ⟨?_, ?_⟩
  · intro _ hz
    rw [pair_F_eq, hz, sgn_zero]
    ext
    · simp [mul_comm]
    · simp [mul_comm]
  · intro ho hz
    have h : s.floor_contribution sqrt i = (0, s.floor_Fn sqrt i) := by
      unfold GranSim.floor_contribution
      rw [if_pos ho, floor_F_eq, hz, sgn_zero, neg_zero, zero_mul]
    rw [h]
    exact ⟨rfl, rfl⟩

theorem headOn_condition : (headOn ℝ).condition 0 1 := by
  simp [GranSim.condition, headOn, row, coeff, squaredNorm]
  norm_num

theorem headOn_dv_t : (headOn ℝ).pair_dv_t Real.sqrt 0 1 = 0 := by
  simp [GranSim.pair_dv_t, GranSim.pair_t, GranSim.pair_n, dot, headOn, row, squaredNorm]

theorem onFloor_rest_vx (vy : ℝ) : (row (onFloor ℝ 0 vy).velocity 0).1 = 0 := rfl

theorem zero_tangential_velocity_witness :
    ((headOn ℝ).condition 0 1 ∧ (headOn ℝ).pair_dv_t Real.sqrt 0 1 = 0 ∧
      0 < coeff (onFloor ℝ 0 (-1)).radii 0 - (row (onFloor ℝ 0 (-1)).position 0).2 ∧
      (row (onFloor ℝ 0 (-1)).velocity 0).1 = 0) ∧
    (headOn ℝ).pair_F Real.sqrt 0 1
      = (headOn ℝ).pair_Fn Real.sqrt 0 1 • (headOn ℝ).pair_n Real.sqrt 0 1 ∧
    ((onFloor ℝ 0 (-1)).floor_contribution Real.sqrt 0).1 = 0 ∧
    (onFloor ℝ 0 (-1)).floor_contribution Real.sqrt 0
      = (0, (onFloor ℝ 0 (-1)).floor_Fn Real.sqrt 0) :=
  ⟨⟨headOn_condition, headOn_dv_t, onFloor_overlap 0 (-1), onFloor_rest_vx (-1)⟩,
    (zero_tangential_velocity Real.sqrt (headOn ℝ) 0 1).1 headOn_condition headOn_dv_t,
    (zero_tangential_velocity Real.sqrt (onFloor ℝ 0 (-1)) 0 0).2 (onFloor_overlap 0 (-1))
      (onFloor_rest_vx (-1))⟩

/-! ## The floor contact law -/

/-- The force `compute_force` returns for a single particle: gravity plus the floor's
contribution. -/
theorem compute_force_single (sqrt : α → α) (s : GranSim α) (h : s.WF)
    (hN : s.Nparticles = 1) :
    (s.compute_force sqrt).force = [s.particle_F sqrt 0] := by
  obtain ⟨f, hf, lf⟩ := compute_force_frame sqrt s
  have hl : s.force.length = s.Nparticles := h.2.2.2.2.2.1
  have hrow := compute_force_rows_no_contact sqrt s hl
    (fun i j hij hj => by omega) 0 (by omega)
  rw [hf] at hrow ⊢
  have lf1 : f.length = 1 := by rw [lf, hl, hN]
  match f, lf1, hrow with
  | [v], _, hv =>
    have : v = s.particle_F sqrt 0 := by simpa [row] using hv
    rw [this]

/-- C13: floor contact law.  For a single-particle system with
`overlap = radius − position.y > 0`, `compute_force` yields
`force = mass·(0, −9.8) + (−sgn(vx)·Ft, Fn)` with
`Fn = max(0, √radius·stiffness·√overlap·(overlap + dampNormal·(−vy)))` and
`Ft = min(friction·Fn, dampTangent·|vx|)`: the pairwise law with `reff = radius`,
`dv_n = −velocity.y`, `dv_t = velocity.x`, and no reaction counterpart. -/
theorem floor_contact_law (sqrt : α → α) (s : GranSim α) (h : s.WF) (hN : s.Nparticles = 1)
    (ho : 0 < coeff s.radii 0 - (row s.position 0).2) :
    (s.compute_force sqrt).force =
      [coeff s.mass 0 • ((0, -9.8) : vec2 α) +
        (-sgn (row s.velocity 0).1 *
            min (s.friction *
                max 0 (sqrt (coeff s.radii 0) * s.young_mod
                  * sqrt (coeff s.radii 0 - (row s.position 0).2)
                  * (coeff s.radii 0 - (row s.position 0).2
                    + s.damp_normal * (-(row s.velocity 0).2))))
              (s.damp_tangent * |(row s.velocity 0).1|),
          max 0 (sqrt (coeff s.radii 0) * s.young_mod
            * sqrt (coeff s.radii 0 - (row s.position 0).2)
            * (coeff s.radii 0 - (row s.position 0).2
              + s.damp_normal * (-(row s.velocity 0).2))))] := by
  rw [compute_force_single sqrt s h hN]
  unfold GranSim.particle_F
  rw [if_pos ho]
  have hg : ((coeff s.mass 0 * 0, coeff s.mass 0 * (-9.8)) : vec2 α)
      = coeff s.mass 0 • ((0, -9.8) : vec2 α) := by
    ext <;> simp
  rw [hg]
  rfl

theorem floor_contact_law_witness :
    (onFloor ℝ 2 (-1)).WF ∧ (onFloor ℝ 2 (-1)).Nparticles = 1 ∧
    0 < coeff (onFloor ℝ 2 (-1)).radii 0 - (row (onFloor ℝ 2 (-1)).position 0).2 ∧
    ((onFloor ℝ 2 (-1)).compute_force Real.sqrt).force =
      [coeff (onFloor ℝ 2 (-1)).mass 0 • ((0, -9.8) : vec2 ℝ) +
        (-sgn (row (onFloor ℝ 2 (-1)).velocity 0).1 *
            min ((onFloor ℝ 2 (-1)).friction *
                max 0 (Real.sqrt (coeff (onFloor ℝ 2 (-1)).radii 0)
                  * (onFloor ℝ 2 (-1)).young_mod
                  * Real.sqrt (coeff (onFloor ℝ 2 (-1)).radii 0
                    - (row (onFloor ℝ 2 (-1)).position 0).2)
                  * (coeff (onFloor ℝ 2 (-1)).radii 0
                    - (row (onFloor ℝ 2 (-1)).position 0).2
                    + (onFloor ℝ 2 (-1)).damp_normal
                      * (-(row (onFloor ℝ 2 (-1)).velocity 0).2))))
              ((onFloor ℝ 2 (-1)).damp_tangent * |(row (onFloor ℝ 2 (-1)).velocity 0).1|),
          max 0 (Real.sqrt (coeff (onFloor ℝ 2 (-1)).radii 0)
            * (onFloor ℝ 2 (-1)).young_mod
            * Real.sqrt (coeff (onFloor ℝ 2 (-1)).radii 0
              - (row (onFloor ℝ 2 (-1)).position 0).2)
            * (coeff (onFloor ℝ 2 (-1)).radii 0 - (row (onFloor ℝ 2 (-1)).position 0).2
              + (onFloor ℝ 2 (-1)).damp_normal
                * (-(row (onFloor ℝ 2 (-1)).velocity 0).2))))] :=
  ⟨onFloor_WF ℝ 2 (-1), rfl, onFloor_overlap 2 (-1),
    floor_contact_law Real.sqrt (onFloor ℝ 2 (-1)) (onFloor_WF ℝ 2 (-1)) rfl
      (onFloor_overlap 2 (-1))⟩

/-! ## Frame properties -/

/-- C14: the corrector leaves rd3 untouched.  For every state, `correct` returns a state
whose rd3 is the rd3 on entry (hence row by row, for every particle), and whose force,
radii, mass and scalar parameters are unchanged as well. -/
theorem correct_leaves_rd3 (s : GranSim α) (i : Nat) :
    (s.correct.rd3 = s.rd3 ∧ row s.correct.rd3 i = row s.rd3 i) ∧
    (s.correct.force = s.force ∧ s.correct.radii = s.radii ∧ s.correct.mass = s.mass) ∧
    (s.correct.young_mod = s.young_mod ∧ s.correct.friction = s.friction ∧
      s.correct.damp_normal = s.damp_normal ∧ s.correct.damp_tangent = s.damp_tangent ∧
      s.correct.dt = s.dt) := by
  obtain ⟨⟨e1, e2, e3, e4⟩, ⟨p1, p2, p3, p4, p5, -⟩, -⟩ :=
    correct_loop_frame (19 / 180 * s.dt ^ 2) (3 / 8 * s.dt) (3 / 2 / s.dt) (1 / s.dt ^ 2) s
      s.Nparticles
  have h3 : s.correct.rd3 = s.rd3 := e4
  exact ⟨⟨h3, by rw [h3]⟩, ⟨e1, e3, e2⟩, ⟨p1, p2, p3, p4, p5⟩⟩

theorem compute_force_eq_force_loops (sqrt : α → α) (s : GranSim α) :
    s.compute_force sqrt
      = GranSim.force_loops sqrt { s with force := s.force.map (fun _ => 0) } :=
  rfl

/-- C15: force is rebuilt from zero.  Two states that differ only in their force field (each
with the same number of rows) get the same force from `compute_force`; and `compute_force`
leaves position, velocity, rd2, rd3, rd4 and time unchanged. -/
theorem force_rebuilt_from_zero (sqrt : α → α) (s t : GranSim α)
    (hdiff : t = { s with force := t.force }) (hlen : t.force.length = s.force.length) :
    (t.compute_force sqrt).force = (s.compute_force sqrt).force ∧
    ((s.compute_force sqrt).position = s.position ∧
      (s.compute_force sqrt).velocity = s.velocity ∧
      (s.compute_force sqrt).rd2 = s.rd2 ∧ (s.compute_force sqrt).rd3 = s.rd3 ∧
      (s.compute_force sqrt).rd4 = s.rd4 ∧ (s.compute_force sqrt).time = s.time) := by
  refine ⟨?_, ?_⟩
  · have hz : t.force.map (fun _ => (0 : vec2 α)) = s.force.map (fun _ => (0 : vec2 α)) := by
      rw [List.map_const', List.map_const', hlen]
    have h0 : ({ t with force := t.force.map (fun _ => 0) } : GranSim α)
        = { s with force := s.force.map (fun _ => 0) } := by
      rw [hz, hdiff]
    rw [compute_force_eq_force_loops, compute_force_eq_force_loops, h0]
  · obtain ⟨f, hf, -⟩ := compute_force_frame sqrt s
    rw [hf]
    exact ⟨rfl, rfl, rfl, rfl, rfl, rfl⟩

theorem force_rebuilt_from_zero_witness :
    (headOn ℝ).force.length = (twoParticles ℝ).force.length ∧
    (({ twoParticles ℝ with force := (headOn ℝ).force } : GranSim ℝ).compute_force
        Real.sqrt).force
      = ((twoParticles ℝ).compute_force Real.sqrt).force :=
  ⟨rfl,
    (force_rebuilt_from_zero Real.sqrt (twoParticles ℝ)
      { twoParticles ℝ with force := (headOn ℝ).force } rfl rfl).1⟩

/-- C16: construction.  For every position input with `N` rows the constructed simulation
has `Nparticles = N`, position equal to the input, time 0, and velocity, force, rd2, rd3
and rd4 with `N` rows, all zero; radii, mass and the five scalar parameters are stored as
given. -/
theorem construction (position : Matrix α) (radii mass : Array α)
    (young_mod friction damp_normal damp_tangent dt : α) (i : Nat) :
    ((GranSim.ctor position radii mass young_mod friction damp_normal damp_tangent
        dt).Nparticles = position.length ∧
      (GranSim.ctor position radii mass young_mod friction damp_normal damp_tangent
        dt).position = position ∧
      (GranSim.ctor position radii mass young_mod friction damp_normal damp_tangent
        dt).time = 0) ∧
    ((GranSim.ctor position radii mass young_mod friction damp_normal damp_tangent
        dt).velocity.length = position.length ∧
      (GranSim.ctor position radii mass young_mod friction damp_normal damp_tangent
        dt).force.length = position.length ∧
      (GranSim.ctor position radii mass young_mod friction damp_normal damp_tangent
        dt).rd2.length = position.length ∧
      (GranSim.ctor position radii mass young_mod friction damp_normal damp_tangent
        dt).rd3.length = position.length ∧
      (GranSim.ctor position radii mass young_mod friction damp_normal damp_tangent
        dt).rd4.length = position.length) ∧
    (row (GranSim.ctor position radii mass young_mod friction damp_normal damp_tangent
        dt).velocity i = 0 ∧
      row (GranSim.ctor position radii mass young_mod friction damp_normal damp_tangent
        dt).force i = 0 ∧
      row (GranSim.ctor position radii mass young_mod friction damp_normal damp_tangent
        dt).rd2 i = 0 ∧
      row (GranSim.ctor position radii mass young_mod friction damp_normal damp_tangent
        dt).rd3 i = 0 ∧
      row (GranSim.ctor position radii mass young_mod friction damp_normal damp_tangent
        dt).rd4 i = 0) ∧
    ((GranSim.ctor position radii mass young_mod friction damp_normal damp_tangent
        dt).radii = radii ∧
      (GranSim.ctor position radii mass young_mod friction damp_normal damp_tangent
        dt).mass = mass ∧
      (GranSim.ctor position radii mass young_mod friction damp_normal damp_tangent
        dt).young_mod = young_mod ∧
      (GranSim.ctor position radii mass young_mod friction damp_normal damp_tangent
        dt).friction = friction ∧
      (GranSim.ctor position radii mass young_mod friction damp_normal damp_tangent
        dt).damp_normal = damp_normal ∧
      (GranSim.ctor position radii mass young_mod friction damp_normal damp_tangent
        dt).damp_tangent = damp_tangent ∧
      (GranSim.ctor position radii mass young_mod friction damp_normal damp_tangent
        dt).dt = dt) := by
  have hz : ∀ n : Nat, row (Matrix.Zero n : Matrix α) i = 0 := by
    intro n
    unfold row Matrix.Zero
    rcases lt_or_le i n with h | h
    · simp [List.getD_eq_getElem?_getD, List.getElem?_replicate, h]
    · simp [List.getD_eq_getElem?_getD, List.getElem?_replicate, not_lt.mpr h]
  have hl : ∀ n : Nat, (Matrix.Zero n : Matrix α).length = n := by
    intro n
    simp [Matrix.Zero]
  exact ⟨⟨rfl, rfl, rfl⟩, ⟨hl _, hl _, hl _, hl _, hl _⟩, ⟨hz _, hz _, hz _, hz _, hz _⟩,
    ⟨rfl, rfl, rfl, rfl, rfl, rfl, rfl⟩⟩

/-! ## The particle count -/

theorem same_params_refl (s : GranSim α) : same_params s s :=
  ⟨rfl, rfl, rfl, rfl, rfl, rfl, rfl, rfl⟩

theorem same_params_trans (s t u : GranSim α) (h1 : same_params s t)
    (h2 : same_params t u) : same_params s u := by
  obtain ⟨a1, a2, a3, a4, a5, a6, a7, a8⟩ := h1
  obtain ⟨b1, b2, b3, b4, b5, b6, b7, b8⟩ := h2
  exact ⟨b1.trans a1, b2.trans a2, b3.trans a3, b4.trans a4, b5.trans a5, b6.trans a6,
    b7.trans a7, b8.trans a8⟩

theorem predict_same_params (s : GranSim α) : same_params s s.predict :=
  ⟨rfl, rfl, rfl, rfl, rfl, rfl, rfl, rfl⟩

theorem compute_force_same_params (sqrt : α → α) (s : GranSim α) :
    same_params s (s.compute_force sqrt) := by
  obtain ⟨f, hf, -⟩ := compute_force_frame sqrt s
  rw [hf]
  exact ⟨rfl, rfl, rfl, rfl, rfl, rfl, rfl, rfl⟩

theorem correct_same_params (s : GranSim α) : same_params s s.correct := by
  obtain ⟨⟨-, e2, e3, -⟩, ⟨p1, p2, p3, p4, p5, p6⟩, -⟩ :=
    correct_loop_frame (19 / 180 * s.dt ^ 2) (3 / 8 * s.dt) (3 / 2 / s.dt) (1 / s.dt ^ 2) s
      s.Nparticles
  exact ⟨p6, e3, e2, p1, p2, p3, p4, p5⟩

theorem step_same_params (sqrt : α → α) (s : GranSim α) : same_params s (s.step sqrt) :=
  same_params_trans _ _ _ (predict_same_params s)
    (same_params_trans _ _ _ (compute_force_same_params sqrt s.predict)
      (correct_same_params _))

/-- C18: fixed particle count.  `predict`, `compute_force`, `correct` and `step` keep
`Nparticles`, radii, mass, stiffness, friction, both damping coefficients and dt; and if
position, velocity, rd2, rd3, rd4, force, radii and mass all have `Nparticles` rows/entries
on entry, they all do on exit. -/
theorem fixed_particle_count (sqrt : α → α) (s : GranSim α) :
    (same_params s s.predict ∧ same_params s (s.compute_force sqrt) ∧
      same_params s s.correct ∧ same_params s (s.step sqrt)) ∧
    ((s.step sqrt).Nparticles = s.Nparticles ∧ (s.step sqrt).radii = s.radii ∧
      (s.step sqrt).mass = s.mass ∧ (s.step sqrt).young_mod = s.young_mod ∧
      (s.step sqrt).friction = s.friction ∧ (s.step sqrt).damp_normal = s.damp_normal ∧
      (s.step sqrt).damp_tangent = s.damp_tangent ∧ (s.step sqrt).dt = s.dt) ∧
    (s.WF → s.predict.WF ∧ (s.compute_force sqrt).WF ∧ s.correct.WF ∧ (s.step sqrt).WF) :=
  ⟨⟨predict_same_params s, compute_force_same_params sqrt s, correct_same_params s,
      step_same_params sqrt s⟩,
    step_same_params sqrt s,
    fun h => ⟨predict_WF s h, compute_force_WF sqrt s h, correct_WF s h, step_WF sqrt s h⟩⟩

theorem fixed_particle_count_witness :
    (twoParticles ℝ).WF ∧
    ((twoParticles ℝ).predict.WF ∧ ((twoParticles ℝ).compute_force Real.sqrt).WF ∧
      (twoParticles ℝ).correct.WF ∧ ((twoParticles ℝ).step Real.sqrt).WF) :=
  ⟨twoParticles_WF ℝ,
    (fixed_particle_count Real.sqrt (twoParticles ℝ)).2.2 (twoParticles_WF ℝ)⟩

/-! ## Well-definedness of the pairwise branch -/

/-- C17: well-definedness of the pairwise branch.  For strictly positive radii, when the
contact test succeeds the overlap `radius(i)+radius(j) − ‖dr‖` satisfies
`0 < overlap ≤ radius(i)+radius(j)` and the denominator `radius(i)+radius(j)` of `reff` is
positive; if moreover `pos(i) ≠ pos(j)` then `‖dr‖ > 0` and `dr/‖dr‖` is a unit vector;
and the divisor `‖dr‖` is zero exactly when the two centres coincide. -/
theorem pair_branch_well_defined (s : GranSim ℝ) (i j : Nat) (hri : 0 < coeff s.radii i)
    (hrj : 0 < coeff s.radii j) (hc : s.condition i j) :
    (0 < coeff s.radii i + coeff s.radii j
          - Real.sqrt (squaredNorm (row s.position i - row s.position j)) ∧
      coeff s.radii i + coeff s.radii j
          - Real.sqrt (squaredNorm (row s.position i - row s.position j))
        ≤ coeff s.radii i + coeff s.radii j) ∧
    0 < coeff s.radii i + coeff s.radii j ∧
    (row s.position i ≠ row s.position j →
      0 < Real.sqrt (squaredNorm (row s.position i - row s.position j)) ∧
      dot (s.pair_n Real.sqrt i j) (s.pair_n Real.sqrt i j) = 1) ∧
    (Real.sqrt (squaredNorm (row s.position i - row s.position j)) = 0 ↔
      row s.position i = row s.position j) := by
  have hsum : 0 < coeff s.radii i + coeff s.radii j := add_pos hri hrj
  have hq : 0 ≤ squaredNorm (row s.position i - row s.position j) :=
    add_nonneg (mul_self_nonneg _) (mul_self_nonneg _)
  have hlt : Real.sqrt (squaredNorm (row s.position i - row s.position j))
      < coeff s.radii i + coeff s.radii j := by
    rw [Real.sqrt_lt' hsum, sq]
    exact hc
  refine ⟨⟨sub_pos.mpr hlt, sub_le_self _ (Real.sqrt_nonneg _)⟩, hsum, ?_, ?_⟩
  · intro hne
    exact ⟨Real.sqrt_pos.mpr (squaredNorm_pos _ (sub_ne_zero.mpr hne)), pair_n_unit s i j hne⟩
  · rw [Real.sqrt_eq_zero hq]
    constructor
    · intro h0
      by_contra hne
      exact (squaredNorm_pos _ (sub_ne_zero.mpr hne)).ne' h0
    · intro he
      rw [he, sub_self]
      simp [squaredNorm]

theorem twoParticles_radii :
    0 < coeff (twoParticles ℝ).radii 0 ∧ 0 < coeff (twoParticles ℝ).radii 1 := by
  simp [twoParticles, coeff]

theorem pair_branch_well_defined_witness :
    (0 < coeff (twoParticles ℝ).radii 0 ∧ 0 < coeff (twoParticles ℝ).radii 1 ∧
      (twoParticles ℝ).condition 0 1 ∧
      row (twoParticles ℝ).position 0 ≠ row (twoParticles ℝ).position 1) ∧
    (0 < coeff (twoParticles ℝ).radii 0 + coeff (twoParticles ℝ).radii 1
          - Real.sqrt (squaredNorm
              (row (twoParticles ℝ).position 0 - row (twoParticles ℝ).position 1)) ∧
      coeff (twoParticles ℝ).radii 0 + coeff (twoParticles ℝ).radii 1
          - Real.sqrt (squaredNorm
              (row (twoParticles ℝ).position 0 - row (twoParticles ℝ).position 1))
        ≤ coeff (twoParticles ℝ).radii 0 + coeff (twoParticles ℝ).radii 1) ∧
    (0 < Real.sqrt (squaredNorm
          (row (twoParticles ℝ).position 0 - row (twoParticles ℝ).position 1)) ∧
      dot ((twoParticles ℝ).pair_n Real.sqrt 0 1) ((twoParticles ℝ).pair_n Real.sqrt 0 1)
        = 1) :=
  ⟨⟨twoParticles_radii.1, twoParticles_radii.2, twoParticles_condition,
      twoParticles_distinct⟩,
    (pair_branch_well_defined (twoParticles ℝ) 0 1 twoParticles_radii.1 twoParticles_radii.2
      twoParticles_condition).1,
    (pair_branch_well_defined (twoParticles ℝ) 0 1 twoParticles_radii.1 twoParticles_radii.2
      twoParticles_condition).2.2.1 twoParticles_distinct⟩

/-! ## Relabelling the two particles of a pair -/

theorem row_Zero (n i : Nat) : row (Matrix.Zero n : Matrix α) i = 0 := by
  unfold row Matrix.Zero
  rcases lt_or_le i n with h | h
  · simp [List.getD_eq_getElem?_getD, List.getElem?_replicate, h]
  · simp [List.getD_eq_getElem?_getD, List.getElem?_replicate, not_lt.mpr h]

theorem length_Zero (n : Nat) : (Matrix.Zero n : Matrix α).length = n := by
  simp [Matrix.Zero]

theorem scale_Zero (a : α) (n : Nat) : scale a (Matrix.Zero n) = Matrix.Zero n := by
  simp [scale, Matrix.Zero]

theorem madd_Zero_Zero (n : Nat) :
    madd (Matrix.Zero n : Matrix α) (Matrix.Zero n) = Matrix.Zero n := by
  induction n with
  | zero => rfl
  | succ n ih =>
    simp only [madd, Matrix.Zero, List.replicate_succ, List.zipWith_cons_cons, add_zero] at ih ⊢
    rw [ih]

theorem ctor_reach_inv (position : Matrix α) (radii mass : Array α)
    (young_mod friction damp_normal damp_tangent dt : α) :
    reach_inv (GranSim.ctor position radii mass young_mod friction damp_normal damp_tangent
      dt) :=
  ⟨⟨rfl, length_Zero _, length_Zero _⟩, rfl, rfl⟩

theorem predict_reach_inv (s : GranSim α) (h : reach_inv s) : reach_inv s.predict := by
  obtain ⟨⟨hp, hv, h2⟩, h3, h4⟩ := h
  have e3 : s.predict.rd3 = Matrix.Zero s.Nparticles := by
    show madd s.rd3 (scale s.dt s.rd4) = Matrix.Zero s.Nparticles
    rw [h3, h4, scale_Zero, madd_Zero_Zero]
  have e2 : s.predict.rd2.length = s.Nparticles := by
    show (madd s.rd2 (madd (scale s.dt s.rd3) (scale (s.dt * s.dt / 2) s.rd4))).length
      = s.Nparticles
    rw [h3, h4, scale_Zero, scale_Zero, madd_Zero_Zero, length_madd _ _ (by rw [h2, length_Zero]),
      h2]
  have ev : s.predict.velocity.length = s.Nparticles := by
    simp only [GranSim.predict, madd, scale, List.length_zipWith, List.length_map, hv, h2, h3,
      h4, length_Zero, min_self]
  have ep : s.predict.position.length = s.Nparticles := by
    simp only [GranSim.predict, madd, scale, List.length_zipWith, List.length_map, hp, hv, h2,
      h3, h4, length_Zero, min_self]
  exact ⟨⟨ep, ev, e2⟩, e3, h4⟩

theorem compute_force_reach_inv (sqrt : α → α) (s : GranSim α) (h : reach_inv s) :
    reach_inv (s.compute_force sqrt) := by
  obtain ⟨f, hf, -⟩ := compute_force_frame sqrt s
  rw [hf]
  exact h

theorem correct_reach_inv (s : GranSim α) (h : reach_inv s) : reach_inv s.correct := by
  obtain ⟨⟨hp, hv, h2⟩, h3, h4⟩ := h
  obtain ⟨⟨-, -, -, e3, e4⟩, ⟨-, -, -, -, -, -, e7⟩, ⟨l1, l2, l3⟩, -⟩ :=
    correct_spec s hp hv h2
  simp only [] at e3 e4 e7 l1 l2 l3
  have eN : s.correct.Nparticles = s.Nparticles := e7
  refine ⟨⟨?_, ?_, ?_⟩, ?_, ?_⟩
  · show s.correct.position.length = s.correct.Nparticles
    rw [l1, eN, hp]
  · show s.correct.velocity.length = s.correct.Nparticles
    rw [l2, eN, hv]
  · show s.correct.rd2.length = s.correct.Nparticles
    rw [l3, eN, h2]
  · show s.correct.rd3 = Matrix.Zero s.correct.Nparticles
    rw [e3, eN, h3]
  · show s.correct.rd4 = Matrix.Zero s.correct.Nparticles
    rw [e4, eN, h4]

theorem step_reach_inv (sqrt : α → α) (s : GranSim α) (h : reach_inv s) :
    reach_inv (s.step sqrt) :=
  correct_reach_inv _ (compute_force_reach_inv sqrt _ (predict_reach_inv s h))

theorem iterate_step_reach_inv (sqrt : α → α) (s : GranSim α) (h : reach_inv s) (k : Nat) :
    reach_inv ((GranSim.step sqrt)^[k] s) := by
  induction k with
  | zero => exact h
  | succ k ih =>
    rw [Function.iterate_succ_apply']
    exact step_reach_inv sqrt _ ih

theorem iterate_step_Nparticles (sqrt : α → α) (s : GranSim α) (k : Nat) :
    ((GranSim.step sqrt)^[k] s).Nparticles = s.Nparticles := by
  induction k with
  | zero => rfl
  | succ k ih =>
    rw [Function.iterate_succ_apply', (step_same_params sqrt _).1]
    exact ih

/-! ## The checked functions -/

/-- A checked loop that succeeds at every iteration is the unchecked loop. -/
theorem foldlM_eq_some {σ β : Type} (P : σ → Prop) (f : σ → β → σ) (g : σ → β → Option σ)
    (l : List β) (s : σ) (h0 : P s)
    (hstep : ∀ t x, x ∈ l → P t → g t x = some (f t x) ∧ P (f t x)) :
    l.foldlM g s = some (l.foldl f s) := by
  induction l generalizing s with
  | nil => rfl
  | cons a l ih =>
    obtain ⟨h1, h2⟩ := hstep s a (List.mem_cons_self a l) h0
    rw [List.foldlM_cons, h1, List.foldl_cons]
    exact ih (f s a) h2 (fun t x hx hP => hstep t x (List.mem_cons_of_mem a hx) hP)

/-- A checked loop that returns, returns what the unchecked loop computes. -/
theorem foldlM_some_eq {σ β : Type} (f : σ → β → σ) (g : σ → β → Option σ)
    (hg : ∀ t x u, g t x = some u → u = f t x) (l : List β) (s t : σ)
    (h : l.foldlM g s = some t) : t = l.foldl f s := by
  induction l generalizing s with
  | nil =>
    have : some s = some t := h
    exact (Option.some.inj this).symm
  | cons a l ih =>
    rw [List.foldlM_cons] at h
    cases hga : g s a with
    | none =>
      rw [hga] at h
      exact absurd h (by simp)
    | some u =>
      rw [hga] at h
      rw [List.foldl_cons, ← hg s a u hga]
      exact ih u h

theorem pair_body_checked_some (sqrt : α → α) (i : Nat) (s : GranSim α) (j : Nat)
    (u : GranSim α) (h : GranSim.pair_body_checked sqrt i s j = some u) :
    u = s.pair_body sqrt i j := by
  unfold GranSim.pair_body_checked at h
  by_cases hc : s.condition i j
  · rw [if_pos hc] at h
    by_cases hd : s.dr_norm sqrt i j = 0
    · rw [if_pos hd] at h
      exact absurd h (by simp)
    · rw [if_neg hd] at h
      exact (Option.some.inj h).symm
  · rw [if_neg hc] at h
    unfold GranSim.pair_body
    rw [if_neg hc]
    exact (Option.some.inj h).symm

theorem pair_row_checked_some (sqrt : α → α) (s : GranSim α) (i : Nat) (u : GranSim α)
    (h : s.pair_row_checked sqrt i = some u) : u = s.pair_row sqrt i :=
  foldlM_some_eq (GranSim.pair_body sqrt i) (GranSim.pair_body_checked sqrt i)
    (pair_body_checked_some sqrt i) _ s u h

/-- When the checked `compute_force` returns, it returns what `compute_force` computes. -/
theorem compute_force_checked_some (sqrt : α → α) (s t : GranSim α)
    (h : s.compute_force_checked sqrt = some t) : t = s.compute_force sqrt := by
  unfold GranSim.compute_force_checked at h
  simp only [Option.map_eq_some'] at h
  obtain ⟨s1, h1, h2⟩ := h
  have := foldlM_some_eq (GranSim.pair_row sqrt) (GranSim.pair_row_checked sqrt)
    (pair_row_checked_some sqrt) _ _ s1 h1
  rw [← h2, this]
  rfl

theorem step_checked_some (sqrt : α → α) (s t : GranSim α)
    (h : s.step_checked sqrt = some t) : t = s.step sqrt := by
  unfold GranSim.step_checked at h
  simp only [Option.map_eq_some'] at h
  obtain ⟨u, h1, h2⟩ := h
  rw [← h2, compute_force_checked_some sqrt _ u h1]
  rfl

theorem steps_checked_some (sqrt : α → α) (k : Nat) (s t : GranSim α)
    (h : GranSim.steps_checked sqrt k s = some t) : t = (GranSim.step sqrt)^[k] s := by
  induction k generalizing t with
  | zero =>
    have : some s = some t := h
    exact (Option.some.inj this).symm
  | succ k ih =>
    have h' : (GranSim.steps_checked sqrt k s).bind (GranSim.step_checked sqrt) = some t := h
    rw [Option.bind_eq_some] at h'
    obtain ⟨u, hu, hstep⟩ := h'
    rw [Function.iterate_succ_apply', ← ih u hu]
    exact step_checked_some sqrt u t hstep

/-- The checked `compute_force` returns when no pair that passes the contact test has
`dr_norm = 0`. -/
theorem compute_force_checked_eq_some (sqrt : α → α) (s : GranSim α)
    (hd : ∀ i j, i < j → j < s.Nparticles → s.condition i j → s.dr_norm sqrt i j ≠ 0) :
    s.compute_force_checked sqrt = some (s.compute_force sqrt) := by
  have hpair : (List.range s.Nparticles).foldlM (GranSim.pair_row_checked sqrt)
        { s with force := s.force.map (fun _ => 0) }
      = some ((List.range s.Nparticles).foldl (GranSim.pair_row sqrt)
        { s with force := s.force.map (fun _ => 0) }) := by
    apply foldlM_eq_some (fun t => ∃ f, t = { s with force := f })
    · exact ⟨_, rfl⟩
    · rintro t i hi ⟨f, rfl⟩
      have hi2 := List.mem_range.mp hi
      have hrow : GranSim.pair_row_checked sqrt { s with force := f } i
          = some (GranSim.pair_row sqrt { s with force := f } i) := by
        unfold GranSim.pair_row_checked GranSim.pair_row
        apply foldlM_eq_some (fun u => ∃ g, u = { s with force := g })
        · exact ⟨_, rfl⟩
        · rintro u j hj ⟨g, rfl⟩
          have hj2 := List.mem_range'_1.mp hj
          have hjN : j < s.Nparticles := by
            have : j < i + 1 + (s.Nparticles - (i + 1)) := hj2.2
            omega
          refine ⟨?_, ?_⟩
          · unfold GranSim.pair_body_checked
            by_cases hc : s.condition i j
            · have hc' : GranSim.condition { s with force := g } i j := hc
              have hne : GranSim.dr_norm sqrt { s with force := g } i j ≠ 0 :=
                hd i j (by omega) hjN hc
              rw [if_pos hc', if_neg hne]
            · have hc' : ¬ GranSim.condition { s with force := g } i j := hc
              rw [if_neg hc']
              unfold GranSim.pair_body
              rw [if_neg hc']
          · obtain ⟨g2, hg2, -⟩ := pair_body_force_inv sqrt { s with force := g } i j
            exact ⟨g2, hg2⟩
      refine ⟨hrow, ?_⟩
      have hinv : force_inv { s with force := f } (GranSim.pair_row sqrt { s with force := f } i) := by
        unfold GranSim.pair_row
        apply foldl_invariant (force_inv { s with force := f })
        · exact ⟨_, rfl, rfl⟩
        · intro u j _ hu
          exact force_inv_trans _ u _ hu (pair_body_force_inv sqrt u i j)
      obtain ⟨g, hg, -⟩ := hinv
      exact ⟨g, hg⟩
  unfold GranSim.compute_force_checked
  simp only []
  rw [hpair]
  rfl

/-- The checked `step` returns when, after prediction, no pair that passes the contact test
has `dr_norm = 0`. -/
theorem step_checked_eq_some (sqrt : α → α) (s : GranSim α)
    (hd : ∀ i j, i < j → j < s.Nparticles → s.predict.condition i j →
      s.predict.dr_norm sqrt i j ≠ 0) :
    s.step_checked sqrt = some (s.step sqrt) := by
  unfold GranSim.step_checked
  rw [compute_force_checked_eq_some sqrt s.predict hd]
  rfl

/-- With two particles, a pair that passes the contact test with `dr_norm = 0` makes the
checked pairwise phase fail. -/
theorem pair_phase_checked_two_none (sqrt : α → α) (s : GranSim α)
    (hN : s.Nparticles = 2) (hc : s.condition 0 1) (hd : s.dr_norm sqrt 0 1 = 0) :
    (List.range s.Nparticles).foldlM (GranSim.pair_row_checked sqrt) s = none := by
  have h2 : List.range 2 = [0, 1] := rfl
  have h1 : List.range' (0 + 1) (2 - (0 + 1)) = [1] := rfl
  have hb : GranSim.pair_body_checked sqrt 0 s 1 = none := by
    unfold GranSim.pair_body_checked
    rw [if_pos hc, if_pos hd]
  have hr : GranSim.pair_row_checked sqrt s 0 = none := by
    unfold GranSim.pair_row_checked
    rw [hN, h1, List.foldlM_cons, hb]
    rfl
  rw [hN, h2, List.foldlM_cons, hr]
  rfl

/-- With two particles, a pair that passes the contact test with `dr_norm = 0` makes the
checked `compute_force` fail. -/
theorem compute_force_checked_two_none (sqrt : α → α) (s : GranSim α)
    (hN : s.Nparticles = 2) (hc : s.condition 0 1) (hd : s.dr_norm sqrt 0 1 = 0) :
    s.compute_force_checked sqrt = none := by
  have hp : (List.range s.Nparticles).foldlM (GranSim.pair_row_checked sqrt)
      { s with force := s.force.map (fun _ => 0) } = none :=
    pair_phase_checked_two_none sqrt { s with force := s.force.map (fun _ => 0) } hN hc hd
  unfold GranSim.compute_force_checked
  simp only []
  rw [hp]
  rfl

/-- Over the reals `dr_norm` vanishes exactly at coincident centres. -/
theorem dr_norm_ne_zero (s : GranSim ℝ) (i j : Nat) (h : row s.position i ≠ row s.position j) :
    s.dr_norm Real.sqrt i j ≠ 0 :=
  (Real.sqrt_pos.mpr (squaredNorm_pos _ (sub_ne_zero.mpr h))).ne'

theorem coincident_WF (β : Type) [LinearOrderedField β] : (coincident β).WF :=
  ⟨rfl, rfl, rfl, rfl, rfl, rfl, rfl, rfl⟩

theorem coincident_condition : (coincident ℝ).condition 0 1 := by
  simp [GranSim.condition, coincident, GranSim.ctor, row, coeff, squaredNorm]

theorem coincident_dr_norm : (coincident ℝ).dr_norm Real.sqrt 0 1 = 0 := by
  simp [GranSim.dr_norm, coincident, GranSim.ctor, row, squaredNorm]

theorem coincident_predict : (coincident ℝ).predict = coincident ℝ := by
  simp [GranSim.predict, coincident, GranSim.ctor, Matrix.Zero, madd, scale]

/-- C5, as the claim states it, fails: two particles of radius 1 constructed at the same
point `(0, 5)` overlap and do not touch the floor, but the pair interaction divides by
`dr_norm = 0` (line 63), so the source adds NaN, not a force `F` and its negation, and the
sum of the computed forces is NaN, not `(0, −9.8·Σ mass)`: the checked pair interaction and
the checked `compute_force` have no value there. -/
theorem coincident_compute_force_fails :
    ((coincident ℝ).WF ∧ (coincident ℝ).condition 0 1 ∧
      coeff (coincident ℝ).radii 0 - (row (coincident ℝ).position 0).2 ≤ 0 ∧
      coeff (coincident ℝ).radii 1 - (row (coincident ℝ).position 1).2 ≤ 0) ∧
    GranSim.pair_body_checked Real.sqrt 0 (coincident ℝ) 1 = none ∧
    (coincident ℝ).compute_force_checked Real.sqrt = none := by
  refine ⟨⟨coincident_WF ℝ, coincident_condition, ?_, ?_⟩, ?_,
    compute_force_checked_two_none Real.sqrt (coincident ℝ) rfl coincident_condition
      coincident_dr_norm⟩
  · simp [coincident, GranSim.ctor, row, coeff]
  · simp [coincident, GranSim.ctor, row, coeff]
  · unfold GranSim.pair_body_checked
    rw [if_pos coincident_condition, if_pos coincident_dr_norm]

/-- C5, amended: Newton's third law in the pairwise phase, away from coincident centres.
An overlapping pair `(i, j)`, `i < j`, with distinct centres adds its force `F` to
`force(i)` and `−F` to `force(j)`, leaving the sum of the rows of `force` unchanged;
consequently, in a state where no particle penetrates the floor and no two overlapping
particles have the same centre, `compute_force` returns a force whose rows sum to
`(0, −9.8·Σ mass)`. -/
theorem newton_third_law_distinct_centres (s : GranSim ℝ) (h : s.WF) :
    (∀ i j, i < j → j < s.Nparticles → s.condition i j →
      row s.position i ≠ row s.position j →
      GranSim.pair_body_checked Real.sqrt i s j = some (s.pair_body Real.sqrt i j) ∧
      row (s.pair_body Real.sqrt i j).force i = row s.force i + s.pair_F Real.sqrt i j ∧
      row (s.pair_body Real.sqrt i j).force j = row s.force j - s.pair_F Real.sqrt i j ∧
      (s.pair_body Real.sqrt i j).force.sum = s.force.sum) ∧
    ((∀ i, i < s.Nparticles → coeff s.radii i - (row s.position i).2 ≤ 0) →
      (∀ i j, i < j → j < s.Nparticles → s.condition i j →
        row s.position i ≠ row s.position j) →
      s.compute_force_checked Real.sqrt = some (s.compute_force Real.sqrt) ∧
      (s.compute_force Real.sqrt).force.sum = (0, -9.8 * s.mass.sum)) := by
  obtain ⟨hrows, hsum⟩ := pair_body_rows_sum Real.sqrt s h
  refine ⟨?_, ?_⟩
  · intro i j hij hj hc hne
    refine ⟨?_, hrows i j hij hj hc⟩
    unfold GranSim.pair_body_checked
    rw [if_pos hc, if_neg (dr_norm_ne_zero s i j hne)]
  · intro hfloor hdist
    exact ⟨compute_force_checked_eq_some Real.sqrt s
      (fun i j hij hj hc => dr_norm_ne_zero s i j (hdist i j hij hj hc)), hsum hfloor⟩

theorem twoParticles_pairs_distinct (i j : Nat) (hij : i < j)
    (hj : j < (twoParticles ℝ).Nparticles) (_ : (twoParticles ℝ).condition i j) :
    row (twoParticles ℝ).position i ≠ row (twoParticles ℝ).position j := by
  have h2 : j < 2 := hj
  have hj1 : j = 1 := by omega
  have hi0 : i = 0 := by omega
  subst hj1 hi0
  exact twoParticles_distinct

theorem newton_third_law_distinct_centres_witness :
    ((twoParticles ℝ).WF ∧ (twoParticles ℝ).condition 0 1 ∧
      row (twoParticles ℝ).position 0 ≠ row (twoParticles ℝ).position 1) ∧
    (GranSim.pair_body_checked Real.sqrt 0 (twoParticles ℝ) 1
        = some ((twoParticles ℝ).pair_body Real.sqrt 0 1) ∧
      row ((twoParticles ℝ).pair_body Real.sqrt 0 1).force 0
        = row (twoParticles ℝ).force 0 + (twoParticles ℝ).pair_F Real.sqrt 0 1 ∧
      row ((twoParticles ℝ).pair_body Real.sqrt 0 1).force 1
        = row (twoParticles ℝ).force 1 - (twoParticles ℝ).pair_F Real.sqrt 0 1 ∧
      ((twoParticles ℝ).pair_body Real.sqrt 0 1).force.sum = (twoParticles ℝ).force.sum) ∧
    ((twoParticles ℝ).compute_force_checked Real.sqrt
        = some ((twoParticles ℝ).compute_force Real.sqrt) ∧
      ((twoParticles ℝ).compute_force Real.sqrt).force.sum
        = (0, -9.8 * (twoParticles ℝ).mass.sum)) :=
  ⟨⟨twoParticles_WF ℝ, twoParticles_condition, twoParticles_distinct⟩,
    (newton_third_law_distinct_centres (twoParticles ℝ) (twoParticles_WF ℝ)).1 0 1
      (by decide) (by decide) twoParticles_condition twoParticles_distinct,
    (newton_third_law_distinct_centres (twoParticles ℝ) (twoParticles_WF ℝ)).2
      twoParticles_floor twoParticles_pairs_distinct⟩

/-- C20, as the claim states it, fails: for two particles constructed at the same point
the first call of `step` divides by `dr_norm = 0` in `compute_force` (line 63); in the
source `force` is NaN, so `corr` is NaN and `rd4.row(i) += c4*corr` (line 45) makes rd4 NaN,
not zero.  The checked `step` has no value there, so no state with rd3 and rd4 zero is
reached. -/
theorem coincident_step_fails :
    GranSim.steps_checked Real.sqrt 1 (coincident ℝ) = none ∧
    ¬ ∃ t, GranSim.steps_checked Real.sqrt 1 (coincident ℝ) = some t ∧
      t.rd3 = Matrix.Zero 2 ∧ t.rd4 = Matrix.Zero 2 := by
  have h : GranSim.steps_checked Real.sqrt 1 (coincident ℝ) = none := by
    show (some (coincident ℝ)).bind (GranSim.step_checked Real.sqrt) = none
    rw [Option.some_bind]
    unfold GranSim.step_checked
    rw [coincident_predict,
      compute_force_checked_two_none Real.sqrt (coincident ℝ) rfl coincident_condition
        coincident_dr_norm]
    rfl
  refine ⟨h, ?_⟩
  rintro ⟨t, ht, -⟩
  rw [h] at ht
  exact absurd ht (by simp)

/-- C20, amended: reachable-state invariant, away from coincident centres.  In every state
reached from a freshly constructed simulation by `k ≥ 0` calls of `step` none of which
divides by `dr_norm = 0` (no two overlapping particles with the same centre after
prediction), rd3 and rd4 are the zero arrays: every row of each is zero.  A call of `step`
reaches a state whenever, after prediction, no pair that passes the contact test has
`dr_norm = 0`. -/
theorem reachable_rd3_rd4_zero (sqrt : α → α) (position : Matrix α) (radii mass : Array α)
    (young_mod friction damp_normal damp_tangent dt : α) (k i : Nat) :
    (∀ t, GranSim.steps_checked sqrt k (GranSim.ctor position radii mass young_mod friction
        damp_normal damp_tangent dt) = some t →
      (t.rd3 = Matrix.Zero position.length ∧ t.rd4 = Matrix.Zero position.length) ∧
      (row t.rd3 i = 0 ∧ row t.rd4 i = 0)) ∧
    (∀ s : GranSim α,
      (∀ a b, a < b → b < s.Nparticles → s.predict.condition a b →
        s.predict.dr_norm sqrt a b ≠ 0) →
      s.step_checked sqrt = some (s.step sqrt)) := by
  refine ⟨?_, fun s hd => step_checked_eq_some sqrt s hd⟩
  intro t ht
  have e := steps_checked_some sqrt k _ t ht
  obtain ⟨-, h3, h4⟩ := iterate_step_reach_inv sqrt _
    (ctor_reach_inv position radii mass young_mod friction damp_normal damp_tangent dt) k
  have hN := iterate_step_Nparticles sqrt
    (GranSim.ctor position radii mass young_mod friction damp_normal damp_tangent dt) k
  rw [← e] at h3 h4 hN
  rw [hN] at h3 h4
  change _ = Matrix.Zero position.length at h3
  change _ = Matrix.Zero position.length at h4
  rw [h3, h4]
  exact ⟨⟨rfl, rfl⟩, row_Zero _ _, row_Zero _ _⟩

theorem touching_predict : (touching ℝ).predict = touching ℝ := by
  simp [GranSim.predict, touching, GranSim.ctor, Matrix.Zero, madd, scale]

theorem touching_condition : (touching ℝ).condition 0 1 := by
  simp [GranSim.condition, touching, GranSim.ctor, row, coeff, squaredNorm]
  norm_num

theorem touching_dr_norm (a b : Nat) (hab : a < b) (hb : b < (touching ℝ).Nparticles)
    (_ : (touching ℝ).predict.condition a b) : (touching ℝ).predict.dr_norm Real.sqrt a b ≠ 0 := by
  have h2 : b < 2 := hb
  have hb1 : b = 1 := by omega
  have ha0 : a = 0 := by omega
  subst hb1 ha0
  rw [touching_predict]
  apply dr_norm_ne_zero
  simp [touching, GranSim.ctor, row]

theorem touching_steps : GranSim.steps_checked Real.sqrt 1 (touching ℝ)
    = some ((touching ℝ).step Real.sqrt) := by
  show (some (touching ℝ)).bind (GranSim.step_checked Real.sqrt) = _
  rw [Option.some_bind]
  exact step_checked_eq_some Real.sqrt (touching ℝ) touching_dr_norm

theorem reachable_rd3_rd4_zero_witness :
    (GranSim.steps_checked Real.sqrt 1 (touching ℝ) = some ((touching ℝ).step Real.sqrt) ∧
      (touching ℝ).predict.condition 0 1 ∧
      (touching ℝ).predict.dr_norm Real.sqrt 0 1 ≠ 0) ∧
    ((((touching ℝ).step Real.sqrt).rd3 = Matrix.Zero 2 ∧
        ((touching ℝ).step Real.sqrt).rd4 = Matrix.Zero 2) ∧
      (row ((touching ℝ).step Real.sqrt).rd3 1 = 0 ∧
        row ((touching ℝ).step Real.sqrt).rd4 1 = 0)) ∧
    (touching ℝ).step_checked Real.sqrt = some ((touching ℝ).step Real.sqrt) :=
  ⟨⟨touching_steps, by rw [touching_predict]; exact touching_condition,
      touching_dr_norm 0 1 (by decide) (by decide)
        (by rw [touching_predict]; exact touching_condition)⟩,
    (reachable_rd3_rd4_zero Real.sqrt [(0, 2), (1, 2)] [1, 1] [1, 2] 1 1 1 1 1 1 1).1
      ((touching ℝ).step Real.sqrt) touching_steps,
    (reachable_rd3_rd4_zero Real.sqrt [(0, 2), (1, 2)] [1, 1] [1, 2] 1 1 1 1 1 1 1).2
      (touching ℝ) touching_dr_norm⟩

end Gran
